import Mathlib

set_option maxRecDepth 16384

/-!
Verification of the ALMA archive MCP server (`server.py`): a shallow
embedding of its sixteen tool operations, their collaborator boundary
(SIMBAD name resolution, alminer cone/key searches, pyvo TAP queries) and
their query builders, with theorems about error handling, query
construction, identifier normalization and the batch runner.

Modelling conventions:
* Python strings are Lean `String`s; the Python string methods used by the
  server (`upper`, `lower`, `strip`, `startswith`, `in`, `replace`) are
  re-implemented below on `List Char` with Python's semantics
  (`replace` = leftmost non-overlapping, optional count).
* Python numbers are `Int` (for `max_rows`, `band`, years) and `ℚ`
  (for coordinates, radii, frequencies); numeric string interpolation is
  modelled with `toString`, whose exact rendering no verified property
  depends on.
* Each collaborator call is an oracle in a `World`; a call that raises in
  Python is an oracle returning `Except.error msg`.  A tool operation is a
  total Lean function returning the response mapping together with the
  trace of collaborator calls it issued; Python `try`/`except` blocks
  become pattern matches on the oracle results, so an uncaught exception
  would show up as a non-total function, which cannot happen here.
* pandas DataFrames are a column list plus a list of rows (association
  lists of column name to value); `df.empty` is row-list emptiness, and
  the `alminer` calls returning `None` are folded into the empty case,
  which the source treats identically (`df is None or df.empty`).
* `float(x)` coercions of in-row values are modelled by total numeric
  extraction with default 0; `.item()` unwrapping of numpy scalars is the
  identity, since row values are already plain `Val`s in the model.
-/

namespace AlmaServer

/-! ## Python string primitives -/

/-- Python `s.upper()` (ASCII, which is all the server feeds it). -/
def pyUpper (s : String) : String := ⟨s.data.map Char.toUpper⟩

/-- Python `s.lower()` (ASCII, which is all the server feeds it). -/
def pyLower (s : String) : String := ⟨s.data.map Char.toLower⟩

/-- Python `s.strip()`: drop leading and trailing whitespace. -/
def pyStrip (s : String) : String :=
  ⟨((s.data.dropWhile Char.isWhitespace).reverse.dropWhile Char.isWhitespace).reverse⟩

/-- `needle` occurs as a contiguous run inside `hay`. -/
def isSubList (needle : List Char) : List Char → Bool
  | [] => needle.isEmpty
  | c :: rest => needle.isPrefixOf (c :: rest) || isSubList needle rest

/-- Python `needle in hay` on strings: substring containment. -/
def pyContains (hay needle : String) : Bool :=
  isSubList needle.data hay.data

/-- Python `s.startswith(p)`. -/
def pyStartsWith (s p : String) : Bool :=
  p.data.isPrefixOf s.data

/-- Core of Python `s.replace(old, new)` for a nonempty pattern
`o :: old`, leftmost non-overlapping occurrences, with fuel for
structural recursion (fuel `≥ s.length` gives the true result). -/
def replaceAllAux : Nat → List Char → Char → List Char → List Char → List Char
  | 0, s, _, _, _ => s
  | _ + 1, [], _, _, _ => []
  | fuel + 1, c :: rest, o, old, new =>
    if (o :: old).isPrefixOf (c :: rest) then
      new ++ replaceAllAux fuel (rest.drop old.length) o old new
    else
      c :: replaceAllAux fuel rest o old new

/-- Python `s.replace(old, new)` on char lists, nonempty pattern. -/
def replaceAll (s : List Char) (o : Char) (old new : List Char) : List Char :=
  replaceAllAux s.length s o old new

/-- Core of Python `s.replace(old, new, 1)`: replace only the first
occurrence of the nonempty pattern `o :: old`. -/
def replaceOneAux : List Char → Char → List Char → List Char → List Char
  | [], _, _, _ => []
  | c :: rest, o, old, new =>
    if (o :: old).isPrefixOf (c :: rest) then
      new ++ rest.drop old.length
    else
      c :: replaceOneAux rest o old new

/-- Python `s.replace(old, new)` on strings.  The server never calls
`replace` with an empty pattern, so that case is returned unchanged. -/
def pyReplace (s old new : String) : String :=
  match old.data with
  | [] => s
  | o :: os => ⟨replaceAll s.data o os new.data⟩

/-- Python `s.replace(old, new, 1)` on strings. -/
def pyReplace1 (s old new : String) : String :=
  match old.data with
  | [] => s
  | o :: os => ⟨replaceOneAux s.data o os new.data⟩

/-! ## Numbers -/

/-- Python `round(x, n)`: round half to even at `n` decimal places
(on the exact rational value). -/
def pyRound (x : ℚ) (n : Nat) : ℚ :=
  let m : ℚ := (10 : ℚ) ^ n
  let y := x * m
  let f : Int := y.floor
  let frac := y - f
  if frac < 1/2 then f / m
  else if frac > 1/2 then (f + 1) / m
  else (if f % 2 = 0 then f else f + 1) / m

/-! ## Values, responses, dataframes, collaborator world -/

/-- A JSON-style value appearing in a response mapping or a result row. -/
inductive Val where
  | s (x : String)
  | n (x : Nat)
  | i (x : Int)
  | q (x : ℚ)
  | b (x : Bool)
  | vlist (xs : List Val)
  | vdict (xs : List (String × Val))
  | null

mutual

/-- Boolean equality on values (used where pandas compares values). -/
def Val.beq : Val → Val → Bool
  | .s x, .s y => x == y
  | .n x, .n y => x == y
  | .i x, .i y => x == y
  | .q x, .q y => x == y
  | .b x, .b y => x == y
  | .vlist x, .vlist y => Val.beqL x y
  | .vdict x, .vdict y => Val.beqD x y
  | .null, .null => true
  | _, _ => false

/-- Boolean equality on value lists. -/
def Val.beqL : List Val → List Val → Bool
  | [], [] => true
  | x :: xs, y :: ys => Val.beq x y && Val.beqL xs ys
  | _, _ => false

/-- Boolean equality on keyed value lists. -/
def Val.beqD : List (String × Val) → List (String × Val) → Bool
  | [], [] => true
  | (k, v) :: xs, (l, w) :: ys => k == l && Val.beq v w && Val.beqD xs ys
  | _, _ => false

end

/-- A response: the mapping every tool operation returns. -/
abbrev Resp := List (String × Val)

/-- Look a key up in a response mapping (first binding wins). -/
def getV : Resp → String → Option Val
  | [], _ => none
  | (k', v) :: rest, k => if k' = k then some v else getV rest k

/-- A result row: backend field names mapped to values. -/
abbrev Row := List (String × Val)

/-- `row.get(key, default)`. -/
def rget : Row → String → Val → Val
  | [], _, d => d
  | (k', v) :: rest, k, d => if k' = k then v else rget rest k d

/-- A pandas DataFrame as the server uses it: named columns and rows. -/
structure Df where
  columns : List String
  rows : List Row

/-- Python `float(...)` on a row value, modelled totally (see header). -/
def toQ : Val → ℚ
  | .n x => x
  | .i x => x
  | .q x => x
  | _ => 0

/-- Python `str(...)` on a row value. -/
def pyStr : Val → String
  | .s x => x
  | .n x => toString x
  | .i x => toString x
  | .q x => toString x
  | .b true => "True"
  | .b false => "False"
  | .vlist _ => "[list]"
  | .vdict _ => "[dict]"
  | .null => "None"

/-- Python truthiness of an optional-string parameter defaulting to
`None`: `None` and `""` are falsy. -/
def truthyS : Option String → Bool
  | none => false
  | some s => s ≠ ""

/-- Python truthiness of an optional-int parameter defaulting to `None`:
`None` and `0` are falsy. -/
def truthyI : Option Int → Bool
  | none => false
  | some x => x ≠ 0

/-- pandas `Series.unique().tolist()`: first occurrences, input order
(fuel-structural for kernel evaluation; fuel `≥ length` is exact). -/
def uniqueFirstAux : Nat → List Val → List Val
  | 0, _ => []
  | _ + 1, [] => []
  | fuel + 1, x :: xs => x :: uniqueFirstAux fuel (xs.filter (fun y => !Val.beq y x))

/-- pandas `unique` on a column's values. -/
def uniqueFirst (l : List Val) : List Val := uniqueFirstAux l.length l

/-- `df.head(n)` for a Python int `n` (negative `n` drops from the end,
as pandas does). -/
def dfHead (rows : List Row) (n : Int) : List Row :=
  if 0 ≤ n then rows.take n.toNat else rows.take (rows.length - (-n).toNat)

/-- One collaborator call, recorded in an operation's trace. -/
inductive Call where
  | simbadQ (name : String)
  | cone (ra dec radius : ℚ) (publicOnly : Bool)
  | keys (d : List (String × String))
  | lineCov (lineFreq z : ℚ)
  | tap (query : String)

/-- The collaborator boundary: availability flags fixed at import time,
and one oracle per external call.  `simbad` folds `Simbad.query_object`
plus the `SkyCoord` conversion: `Except.error` is a raised exception,
`Except.ok none` is "no match", `Except.ok (some (ra, dec))` is a
resolved position in degrees.  `tap` folds `TAPService` construction,
`service.search` and the conversion to pandas. -/
structure World where
  alminerAvailable : Bool
  pyvoAvailable : Bool
  simbadAvailable : Bool
  simbad : String → Except String (Option (ℚ × ℚ))
  conesearch : ℚ → ℚ → ℚ → Bool → Except String Df
  keysearch : List (String × String) → Except String Df
  lineCoverage : Df → ℚ → ℚ → Except String Df
  tap : String → Except String Df

/-! ## Tool operations

Each function mirrors one `@mcp.tool()` of `server.py`, in source order.
Optional parameters default to `none` / the documented default at every
call site below; defaults are not encoded as Lean default arguments.
Line numbers refer to `server.py`. -/

/-- The one-key error mapping used by every guard and handler. -/
def errResp (msg : String) : Resp := [("error", Val.s msg)]

/-- Python `f"{x:.4f}"`, modelled as the rounded rational rendered with
`toString` (no verified property depends on the rendering). -/
def fmt4 (x : ℚ) : String := toString (pyRound x 4)

/-- The cone-search TAP query built at lines 163-170. -/
def positionQuery (ra_degrees dec_degrees radius_deg : ℚ) : String :=
  "\n        SELECT TOP 100\n            target_name, s_ra, s_dec, band_list, proposal_id,\n            frequency, bandwidth, t_exptime, s_resolution\n        FROM ivoa.obscore \n        WHERE CONTAINS(POINT('ICRS', s_ra, s_dec), \n                       CIRCLE('ICRS', "
  ++ toString ra_degrees ++ ", " ++ toString dec_degrees ++ ", "
  ++ toString radius_deg ++ ")) = 1\n        "

/-- Lines 186-192: one formatted observation of the position search. -/
def positionObs (r : Row) : List (String × Val) :=
  [("target", rget r "target_name" (.s "Unknown")),
   ("ra", .q (pyRound (toQ (rget r "s_ra" (.n 0))) 4)),
   ("dec", .q (pyRound (toQ (rget r "s_dec" (.n 0))) 4)),
   ("band", .s (pyStr (rget r "band_list" (.s "Unknown")))),
   ("proposal_id", rget r "proposal_id" (.s "Unknown"))]

/-- Lines 135-204: `search_alma_by_position`.  Note the source ignores
`public_only` when building the TAP query; the parameter is kept. -/
def search_alma_by_position (w : World) (ra_degrees dec_degrees : ℚ)
    (radius_arcmin : ℚ) (public_only : Bool) : Resp × List Call :=
  if !w.pyvoAvailable then (errResp "pyvo library not installed", [])
  else
    let _ := public_only
    let radius_deg := radius_arcmin / 60
    let query := positionQuery ra_degrees dec_degrees radius_deg
    match w.tap query with
    | .error e => (errResp ("Position search failed: " ++ e), [.tap query])
    | .ok df =>
      if df.rows.isEmpty then
        ([("count", .n 0),
          ("position", .vdict [("ra", .q ra_degrees), ("dec", .q dec_degrees)]),
          ("observations", .vlist []),
          ("summary", .s ("No ALMA observations at RA=" ++ fmt4 ra_degrees
            ++ ", Dec=" ++ fmt4 dec_degrees))],
         [.tap query])
      else
        ([("count", .n df.rows.length),
          ("showing", .n (min 20 df.rows.length)),
          ("position", .vdict [("ra", .q ra_degrees), ("dec", .q dec_degrees)]),
          ("observations", .vlist ((df.rows.take 20).map (fun r => .vdict (positionObs r)))),
          ("summary", .s ("Found " ++ toString df.rows.length
            ++ " ALMA observations near RA=" ++ fmt4 ra_degrees
            ++ ", Dec=" ++ fmt4 dec_degrees))],
         [.tap query])

/-- Lines 106-113: one formatted observation of the target search. -/
def targetObs (r : Row) : List (String × Val) :=
  [("target", rget r "target_name" (.s "Unknown")),
   ("ra", .q (pyRound (toQ (rget r "s_ra" (rget r "ra" (.n 0)))) 4)),
   ("dec", .q (pyRound (toQ (rget r "s_dec" (rget r "dec" (.n 0)))) 4)),
   ("band", .s (pyStr (rget r "band_list" (rget r "band" (.s "Unknown"))))),
   ("proposal_id", rget r "proposal_id" (rget r "project_code" (.s "Unknown"))),
   ("integration_time_sec", .q (toQ (rget r "t_exptime" (rget r "integration_time" (.n 0)))))]

/-- Lines 51-128: `search_alma_by_target`.  The preferred backend
(alminer cone search) is used when available; on an alminer exception the
handler at lines 124-125 returns the error mapping directly, and the TAP
fallback at line 128 runs only when alminer is unavailable. -/
def search_alma_by_target (w : World) (target_name : String)
    (radius_arcmin : ℚ) (public_only : Bool) : Resp × List Call :=
  if !w.simbadAvailable then
    (errResp "astroquery not installed - cannot resolve target name", [])
  else
    match w.simbad target_name with
    | .error e =>
      (errResp ("Failed to resolve target: " ++ e), [.simbadQ target_name])
    | .ok none =>
      (errResp ("Could not resolve '" ++ target_name ++ "' - not found in SIMBAD"),
       [.simbadQ target_name])
    | .ok (some (ra_deg, dec_deg)) =>
      if w.alminerAvailable then
        let radius_deg := radius_arcmin / 60
        match w.conesearch ra_deg dec_deg radius_deg public_only with
        | .error e =>
          (errResp ("ALMA search failed: " ++ e),
           [.simbadQ target_name, .cone ra_deg dec_deg radius_deg public_only])
        | .ok df =>
          if df.rows.isEmpty then
            ([("count", .n 0),
              ("target_resolved_to", .vdict [("ra", .q (pyRound ra_deg 4)),
                ("dec", .q (pyRound dec_deg 4))]),
              ("observations", .vlist []),
              ("summary", .s ("No ALMA observations found for " ++ target_name))],
             [.simbadQ target_name, .cone ra_deg dec_deg radius_deg public_only])
          else
            ([("count", .n df.rows.length),
              ("showing", .n (min 20 df.rows.length)),
              ("target_resolved_to", .vdict [("ra", .q (pyRound ra_deg 4)),
                ("dec", .q (pyRound dec_deg 4))]),
              ("observations", .vlist ((df.rows.take 20).map (fun r => .vdict (targetObs r)))),
              ("summary", .s ("Found " ++ toString df.rows.length
                ++ " ALMA observations for " ++ target_name))],
             [.simbadQ target_name, .cone ra_deg dec_deg radius_deg public_only])
      else
        let (resp, calls) := search_alma_by_position w ra_deg dec_deg radius_arcmin public_only
        (resp, .simbadQ target_name :: calls)

/-- Lines 276-289: the WHERE clause and query of the proposal search's
TAP fallback.  `science_category` is not used by this branch. -/
def proposalQuery (proposal_id pi_name : Option String) : String :=
  let conditions :=
    (if truthyS proposal_id then
      ["proposal_id LIKE '%" ++ proposal_id.getD "" ++ "%'"] else [])
    ++ (if truthyS pi_name then
      ["LOWER(obs_creator_name) LIKE LOWER('%" ++ pi_name.getD "" ++ "%')"] else [])
  let where_clause :=
    if conditions.isEmpty then "1=1" else String.intercalate " AND " conditions
  "\n        SELECT TOP 100\n            target_name, s_ra, s_dec, band_list, proposal_id, obs_creator_name\n        FROM ivoa.obscore \n        WHERE "
  ++ where_clause ++ "\n        "

/-- Lines 250-255: one formatted observation, alminer branch. -/
def proposalObsA (r : Row) : List (String × Val) :=
  [("target", rget r "target_name" (.s "Unknown")),
   ("proposal_id", rget r "proposal_id" (rget r "project_code" (.s "Unknown"))),
   ("pi", rget r "obs_creator_name" (.s "Unknown")),
   ("band", .s (pyStr (rget r "band_list" (rget r "band" (.s "Unknown")))))]

/-- Lines 296-301: one formatted observation, TAP branch. -/
def proposalObsT (r : Row) : List (String × Val) :=
  [("target", rget r "target_name" (.s "Unknown")),
   ("proposal_id", rget r "proposal_id" (.s "Unknown")),
   ("pi", rget r "obs_creator_name" (.s "Unknown")),
   ("band", .s (pyStr (rget r "band_list" (.s "Unknown"))))]

/-- Lines 268-312: the TAP portion of the proposal search (reached when
alminer is unavailable or its `keysearch` raised; the handler at line 266
is `pass`).  This branch has no empty-result early return. -/
def proposalTap (w : World) (proposal_id pi_name : Option String) : Resp × List Call :=
  if !w.pyvoAvailable then (errResp "Neither alminer nor pyvo available", [])
  else
    let query := proposalQuery proposal_id pi_name
    match w.tap query with
    | .error e => (errResp ("Proposal search failed: " ++ e), [.tap query])
    | .ok df =>
      ([("count", .n df.rows.length),
        ("showing", .n (min 20 df.rows.length)),
        ("observations", .vlist ((df.rows.take 20).map (fun r => .vdict (proposalObsT r)))),
        ("summary", .s ("Found " ++ toString df.rows.length
          ++ " observations matching criteria"))],
       [.tap query])

/-- Lines 211-312: `search_alma_by_proposal`. -/
def search_alma_by_proposal (w : World)
    (proposal_id pi_name science_category : Option String) : Resp × List Call :=
  if !(truthyS proposal_id || truthyS pi_name || truthyS science_category) then
    (errResp "Must provide at least one search parameter (proposal_id, pi_name, or science_category)",
     [])
  else if w.alminerAvailable then
    let search_dict :=
      (if truthyS proposal_id then [("proposal_id", proposal_id.getD "")] else [])
      ++ (if truthyS pi_name then [("pi_name", pi_name.getD "")] else [])
      ++ (if truthyS science_category then [("scientific_category", science_category.getD "")] else [])
    match w.keysearch search_dict with
    | .error _ =>
      let (resp, calls) := proposalTap w proposal_id pi_name
      (resp, .keys search_dict :: calls)
    | .ok df =>
      if df.rows.isEmpty then
        ([("count", .n 0), ("observations", .vlist []),
          ("summary", .s "No matching observations found")],
         [.keys search_dict])
      else
        ([("count", .n df.rows.length),
          ("showing", .n (min 20 df.rows.length)),
          ("observations", .vlist ((df.rows.take 20).map (fun r => .vdict (proposalObsA r)))),
          ("summary", .s ("Found " ++ toString df.rows.length
            ++ " observations matching criteria"))],
         [.keys search_dict])
  else
    proposalTap w proposal_id pi_name

/-- Lines 319-385: `check_alma_line_coverage`.  The cone search at line
353 uses `search_radius=0.016` (and alminer's default public setting,
rendered `true` here).  A `redshift` of `-1` makes the Python float
division raise inside the handler; that case is the explicit guard. -/
def check_alma_line_coverage (w : World) (target_name : String)
    (line_frequency_ghz : ℚ) (redshift : ℚ) : Resp × List Call :=
  if !w.alminerAvailable then
    (errResp "alminer library required for line coverage check", [])
  else if !w.simbadAvailable then
    (errResp "astroquery required for target resolution", [])
  else
    match w.simbad target_name with
    | .error e => (errResp ("Line coverage check failed: " ++ e), [.simbadQ target_name])
    | .ok none =>
      (errResp ("Could not resolve '" ++ target_name ++ "'"), [.simbadQ target_name])
    | .ok (some (ra_deg, dec_deg)) =>
      match w.conesearch ra_deg dec_deg (16/1000) true with
      | .error e =>
        (errResp ("Line coverage check failed: " ++ e),
         [.simbadQ target_name, .cone ra_deg dec_deg (16/1000) true])
      | .ok df =>
        let trace : List Call := [.simbadQ target_name, .cone ra_deg dec_deg (16/1000) true]
        if df.rows.isEmpty then
          ([("total_observations", .n 0), ("covering_line", .n 0),
            ("summary", .s ("No ALMA observations found for " ++ target_name))],
           trace)
        else
          match w.lineCoverage df line_frequency_ghz redshift with
          | .error e =>
            (errResp ("Line coverage check failed: " ++ e),
             trace ++ [.lineCov line_frequency_ghz redshift])
          | .ok covered =>
            let trace := trace ++ [.lineCov line_frequency_ghz redshift]
            if 1 + redshift = 0 then
              (errResp "Line coverage check failed: float division by zero", trace)
            else if covered.rows.isEmpty then
              ([("total_observations", .n df.rows.length),
                ("covering_line", .n 0),
                ("line_frequency_ghz", .q line_frequency_ghz),
                ("redshift", .q redshift),
                ("observed_frequency_ghz", .q (pyRound (line_frequency_ghz / (1 + redshift)) 4)),
                ("summary", .s ("None of the " ++ toString df.rows.length
                  ++ " observations cover " ++ toString line_frequency_ghz
                  ++ " GHz at z=" ++ toString redshift))],
               trace)
            else
              ([("total_observations", .n df.rows.length),
                ("covering_line", .n covered.rows.length),
                ("line_frequency_ghz", .q line_frequency_ghz),
                ("redshift", .q redshift),
                ("observed_frequency_ghz", .q (pyRound (line_frequency_ghz / (1 + redshift)) 4)),
                ("summary", .s (toString covered.rows.length ++ " of "
                  ++ toString df.rows.length ++ " observations cover the line"))],
               trace)

/-- Lines 392-436: `get_alma_info`, a static mapping. -/
def get_alma_info : Resp × List Call :=
  ([("telescope", .s "Atacama Large Millimeter/submillimeter Array"),
    ("location", .s "Atacama Desert, Chile (5000m altitude)"),
    ("operator", .s "NRAO, ESO, NAOJ"),
    ("antennas", .s "66 high-precision antennas (54 x 12m + 12 x 7m)"),
    ("bands", .vdict
      [("Band 3", .vdict [("frequency_ghz", .s "84-116"), ("wavelength_mm", .s "2.6-3.6")]),
       ("Band 4", .vdict [("frequency_ghz", .s "125-163"), ("wavelength_mm", .s "1.8-2.4")]),
       ("Band 5", .vdict [("frequency_ghz", .s "163-211"), ("wavelength_mm", .s "1.4-1.8")]),
       ("Band 6", .vdict [("frequency_ghz", .s "211-275"), ("wavelength_mm", .s "1.1-1.4")]),
       ("Band 7", .vdict [("frequency_ghz", .s "275-373"), ("wavelength_mm", .s "0.8-1.1")]),
       ("Band 8", .vdict [("frequency_ghz", .s "385-500"), ("wavelength_mm", .s "0.6-0.8")]),
       ("Band 9", .vdict [("frequency_ghz", .s "602-720"), ("wavelength_mm", .s "0.4-0.5")]),
       ("Band 10", .vdict [("frequency_ghz", .s "787-950"), ("wavelength_mm", .s "0.3-0.4")])]),
    ("common_lines", .vdict
      [("CO(1-0)", .s "115.271 GHz"), ("CO(2-1)", .s "230.538 GHz"),
       ("CO(3-2)", .s "345.796 GHz"), ("13CO(1-0)", .s "110.201 GHz"),
       ("13CO(2-1)", .s "220.399 GHz"), ("HCN(1-0)", .s "88.632 GHz"),
       ("HCO+(1-0)", .s "89.189 GHz"), ("CS(2-1)", .s "97.981 GHz"),
       ("SiO(2-1)", .s "86.847 GHz"), ("N2H+(1-0)", .s "93.174 GHz")]),
    ("science_categories", .vlist
      [.s "Cosmology", .s "Galaxy evolution", .s "ISM and star formation",
       .s "Disks and planet formation", .s "Stars and stellar evolution",
       .s "Solar system", .s "Sun"])],
   [])

/-- Lines 468-480: the frequency-overlap query (frequencies in Hz). -/
def frequencyQuery (min_freq_ghz max_freq_ghz : ℚ) (target_name : Option String) : String :=
  let q :=
    "\n        SELECT TOP 100\n            target_name, s_ra, s_dec, band_list, proposal_id,\n            frequency, bandwidth, t_exptime, s_resolution\n        FROM ivoa.obscore \n        WHERE frequency >= "
    ++ toString (min_freq_ghz * 1000000000) ++ " \n          AND frequency <= "
    ++ toString (max_freq_ghz * 1000000000) ++ "\n        "
  let q := if truthyS target_name then
    q ++ " AND LOWER(target_name) LIKE LOWER('%" ++ target_name.getD "" ++ "%')" else q
  q ++ " ORDER BY frequency"

/-- Lines 494-502: one formatted observation of the frequency search. -/
def frequencyObs (r : Row) : List (String × Val) :=
  [("target", rget r "target_name" (.s "Unknown")),
   ("frequency_ghz", .q (pyRound (toQ (rget r "frequency" (.n 0)) / 1000000000) 2)),
   ("bandwidth_ghz", .q (pyRound (toQ (rget r "bandwidth" (.n 0)) / 1000000000) 2)),
   ("band", .s (pyStr (rget r "band_list" (.s "Unknown")))),
   ("proposal_id", rget r "proposal_id" (.s "Unknown"))]

/-- Lines 443-513: `search_alma_by_frequency`. -/
def search_alma_by_frequency (w : World) (min_freq_ghz max_freq_ghz : ℚ)
    (target_name : Option String) : Resp × List Call :=
  if !w.pyvoAvailable then (errResp "pyvo library not installed", [])
  else
    let query := frequencyQuery min_freq_ghz max_freq_ghz target_name
    match w.tap query with
    | .error e => (errResp ("Frequency search failed: " ++ e), [.tap query])
    | .ok df =>
      if df.rows.isEmpty then
        ([("count", .n 0),
          ("frequency_range_ghz", .vlist [.q min_freq_ghz, .q max_freq_ghz]),
          ("observations", .vlist []),
          ("summary", .s ("No observations found in " ++ toString min_freq_ghz
            ++ "-" ++ toString max_freq_ghz ++ " GHz range"))],
         [.tap query])
      else
        ([("count", .n df.rows.length),
          ("showing", .n (min 20 df.rows.length)),
          ("frequency_range_ghz", .vlist [.q min_freq_ghz, .q max_freq_ghz]),
          ("observations", .vlist ((df.rows.take 20).map (fun r => .vdict (frequencyObs r)))),
          ("summary", .s ("Found " ++ toString df.rows.length ++ " observations in "
            ++ toString min_freq_ghz ++ "-" ++ toString max_freq_ghz ++ " GHz range"))],
         [.tap query])

/-- Lines 548-560: the resolution-range query (resolution in degrees). -/
def resolutionQuery (max_res_deg min_res_deg : ℚ) (target_name : Option String) : String :=
  let q :=
    "\n        SELECT TOP 100\n            target_name, s_ra, s_dec, band_list, proposal_id,\n            s_resolution, frequency, t_exptime\n        FROM ivoa.obscore \n        WHERE s_resolution <= "
    ++ toString max_res_deg ++ "\n          AND s_resolution >= " ++ toString min_res_deg ++ "\n        "
  let q := if truthyS target_name then
    q ++ " AND LOWER(target_name) LIKE LOWER('%" ++ target_name.getD "" ++ "%')" else q
  q ++ " ORDER BY s_resolution"

/-- Lines 574-582: one formatted observation of the resolution search. -/
def resolutionObs (r : Row) : List (String × Val) :=
  [("target", rget r "target_name" (.s "Unknown")),
   ("resolution_arcsec", .q (pyRound (toQ (rget r "s_resolution" (.n 0)) * 3600) 3)),
   ("band", .s (pyStr (rget r "band_list" (.s "Unknown")))),
   ("proposal_id", rget r "proposal_id" (.s "Unknown"))]

/-- Lines 520-593: `search_alma_by_resolution`. -/
def search_alma_by_resolution (w : World) (max_resolution_arcsec : ℚ)
    (min_resolution_arcsec : ℚ) (target_name : Option String) : Resp × List Call :=
  if !w.pyvoAvailable then (errResp "pyvo library not installed", [])
  else
    let query := resolutionQuery (max_resolution_arcsec / 3600)
      (min_resolution_arcsec / 3600) target_name
    match w.tap query with
    | .error e => (errResp ("Resolution search failed: " ++ e), [.tap query])
    | .ok df =>
      if df.rows.isEmpty then
        ([("count", .n 0),
          ("resolution_range_arcsec", .vlist [.q min_resolution_arcsec, .q max_resolution_arcsec]),
          ("observations", .vlist []),
          ("summary", .s ("No observations found with resolution "
            ++ toString min_resolution_arcsec ++ "-" ++ toString max_resolution_arcsec
            ++ " arcsec"))],
         [.tap query])
      else
        ([("count", .n df.rows.length),
          ("showing", .n (min 20 df.rows.length)),
          ("resolution_range_arcsec", .vlist [.q min_resolution_arcsec, .q max_resolution_arcsec]),
          ("observations", .vlist ((df.rows.take 20).map (fun r => .vdict (resolutionObs r)))),
          ("summary", .s ("Found " ++ toString df.rows.length
            ++ " observations with resolution < " ++ toString max_resolution_arcsec
            ++ " arcsec"))],
         [.tap query])

/-- Lines 633-636: inject a `TOP` clause into a raw query when the
uppercased, stripped text has no `TOP` substring, starts with `SELECT`
and has no `COUNT` substring; the replacement is done case-sensitively
on the original text. -/
def injectTop (sql_query : String) (max_rows : Int) : String :=
  let sql_upper := pyStrip (pyUpper sql_query)
  if !pyContains sql_upper "TOP" && pyStartsWith sql_upper "SELECT"
      && !pyContains sql_upper "COUNT" then
    pyReplace1 sql_query "SELECT" ("SELECT TOP " ++ toString max_rows)
  else sql_query

/-- Lines 600-674: `run_alma_tap_query` (`max_rows` defaults to 100 at
the boundary; see `run_alma_tap_query_default`). -/
def run_alma_tap_query (w : World) (sql_query : String) (max_rows : Int) : Resp × List Call :=
  if !w.pyvoAvailable then (errResp "pyvo library not installed", [])
  else
    let max_rows := min max_rows 1000
    let sql2 := injectTop sql_query max_rows
    match w.tap sql2 with
    | .error e =>
      ([("error", .s ("TAP query failed: " ++ e)),
        ("hint", .s "Check your SQL syntax. Query the 'ivoa.obscore' table. Use single quotes for string values.")],
       [.tap sql2])
    | .ok df =>
      if df.rows.isEmpty then
        ([("count", .n 0),
          ("columns", .vlist (df.columns.map Val.s)),
          ("rows", .vlist []),
          ("summary", .s "Query returned no results")],
         [.tap sql2])
      else
        ([("count", .n df.rows.length),
          ("showing", .i (min max_rows (df.rows.length : Int))),
          ("columns", .vlist (df.columns.map Val.s)),
          ("rows", .vlist ((dfHead df.rows max_rows).map
            (fun r => .vdict (df.columns.map (fun c => (c, rget r c .null)))))),
          ("summary", .s ("Query returned " ++ toString df.rows.length ++ " rows"))],
         [.tap sql2])

/-- `run_alma_tap_query` with its declared default `max_rows = 100`. -/
def run_alma_tap_query_default (w : World) (sql_query : String) : Resp × List Call :=
  run_alma_tap_query w sql_query 100

/-- Lines 704-719: the source-name query; the user value is interpolated
verbatim into a quoted literal in both branches. -/
def sourceNameQuery (source_name : String) (exact_match : Bool) : String :=
  if exact_match then
    "\n            SELECT TOP 100\n                target_name, s_ra, s_dec, band_list, proposal_id,\n                frequency, t_exptime, s_resolution, dataproduct_type\n            FROM ivoa.obscore \n            WHERE target_name = '"
    ++ source_name ++ "'\n            "
  else
    "\n            SELECT TOP 100\n                target_name, s_ra, s_dec, band_list, proposal_id,\n                frequency, t_exptime, s_resolution, dataproduct_type\n            FROM ivoa.obscore \n            WHERE LOWER(target_name) LIKE LOWER('%"
    ++ source_name ++ "%')\n            "

/-- Lines 732-740: one formatted observation of the source-name search. -/
def sourceNameObs (r : Row) : List (String × Val) :=
  [("target", rget r "target_name" (.s "Unknown")),
   ("ra", .q (pyRound (toQ (rget r "s_ra" (.n 0))) 4)),
   ("dec", .q (pyRound (toQ (rget r "s_dec" (.n 0))) 4)),
   ("band", .s (pyStr (rget r "band_list" (.s "Unknown")))),
   ("proposal_id", rget r "proposal_id" (.s "Unknown")),
   ("data_type", rget r "dataproduct_type" (.s "Unknown"))]

/-- Lines 681-755: `search_alma_by_source_name`. -/
def search_alma_by_source_name (w : World) (source_name : String)
    (exact_match : Bool) : Resp × List Call :=
  if !w.pyvoAvailable then (errResp "pyvo library not installed", [])
  else
    let query := sourceNameQuery source_name exact_match
    match w.tap query with
    | .error e => (errResp ("Source name search failed: " ++ e), [.tap query])
    | .ok df =>
      if df.rows.isEmpty then
        ([("count", .n 0),
          ("observations", .vlist []),
          ("summary", .s ("No ALMA observations found with source name '"
            ++ source_name ++ "'"))],
         [.tap query])
      else
        ([("count", .n df.rows.length),
          ("showing", .n (min 20 df.rows.length)),
          ("unique_targets_found", .vlist
            ((uniqueFirst (df.rows.map (fun r => rget r "target_name" .null))).take 10)),
          ("observations", .vlist ((df.rows.take 20).map (fun r => .vdict (sourceNameObs r)))),
          ("summary", .s ("Found " ++ toString df.rows.length
            ++ " observations matching source name '" ++ source_name ++ "'"))],
         [.tap query])

/-- Lines 791-809: the bibliography query. -/
def bibliographyQuery (bibcode journal_name first_author : Option String)
    (publication_year : Option Int) : String :=
  let conditions :=
    (if truthyS bibcode then
      ["bib_reference LIKE '%" ++ bibcode.getD "" ++ "%'"] else [])
    ++ (if truthyS journal_name then
      ["bib_reference LIKE '%" ++ journal_name.getD "" ++ "%'"] else [])
    ++ (if truthyS first_author then
      ["LOWER(first_author) LIKE LOWER('%" ++ first_author.getD "" ++ "%')"] else [])
    ++ (if truthyI publication_year then
      ["publication_year = " ++ toString (publication_year.getD 0)] else [])
  "\n        SELECT TOP 100\n            target_name, s_ra, s_dec, band_list, proposal_id,\n            bib_reference, first_author, publication_year, pub_title\n        FROM ivoa.obscore \n        WHERE "
  ++ String.intercalate " AND " conditions ++ "\n        "

/-- Lines 822-830: one formatted observation of the bibliography search
(`pub_title` is truncated to 100 characters). -/
def bibliographyObs (r : Row) : List (String × Val) :=
  [("target", rget r "target_name" (.s "Unknown")),
   ("proposal_id", rget r "proposal_id" (.s "Unknown")),
   ("bibcode", rget r "bib_reference" (.s "Unknown")),
   ("first_author", rget r "first_author" (.s "Unknown")),
   ("pub_year", rget r "publication_year" (.s "Unknown")),
   ("pub_title", .s ⟨(pyStr (rget r "pub_title" (.s "Unknown"))).data.take 100⟩)]

/-- Lines 762-841: `search_alma_by_bibliography`. -/
def search_alma_by_bibliography (w : World)
    (bibcode journal_name first_author : Option String)
    (publication_year : Option Int) : Resp × List Call :=
  if !w.pyvoAvailable then (errResp "pyvo library not installed", [])
  else if !(truthyS bibcode || truthyS journal_name || truthyS first_author
      || truthyI publication_year) then
    (errResp "Must provide at least one search parameter", [])
  else
    let query := bibliographyQuery bibcode journal_name first_author publication_year
    match w.tap query with
    | .error e => (errResp ("Bibliography search failed: " ++ e), [.tap query])
    | .ok df =>
      if df.rows.isEmpty then
        ([("count", .n 0),
          ("observations", .vlist []),
          ("summary", .s "No ALMA observations found with matching bibliography")],
         [.tap query])
      else
        ([("count", .n df.rows.length),
          ("showing", .n (min 20 df.rows.length)),
          ("observations", .vlist ((df.rows.take 20).map (fun r => .vdict (bibliographyObs r)))),
          ("summary", .s ("Found " ++ toString df.rows.length
            ++ " observations with matching publications"))],
         [.tap query])

/-- Line 870: UID normalization — replace every `___` with `://`, then
every remaining `_` with `/`. -/
def normalizeUid (member_ous_id : String) : String :=
  pyReplace (pyReplace member_ous_id "___" "://") "_" "/"

/-- Lines 872-876: the dataset-id equality query over the normalized
identifier. -/
def memberOusQuery (uid : String) : String :=
  "\n        SELECT *\n        FROM ivoa.obscore \n        WHERE member_ous_uid = '" ++ uid ++ "'\n        "

/-- Lines 890-902: one formatted data product (all rows are formatted,
with no 20-row display cap). -/
def memberOusObs (r : Row) : List (String × Val) :=
  [("target", rget r "target_name" (.s "Unknown")),
   ("ra", .q (pyRound (toQ (rget r "s_ra" (.n 0))) 4)),
   ("dec", .q (pyRound (toQ (rget r "s_dec" (.n 0))) 4)),
   ("band", .s (pyStr (rget r "band_list" (.s "Unknown")))),
   ("proposal_id", rget r "proposal_id" (.s "Unknown")),
   ("frequency_ghz", .q (pyRound (toQ (rget r "frequency" (.n 0))) 2)),
   ("resolution_arcsec", .q (pyRound (toQ (rget r "s_resolution" (.n 0))) 3)),
   ("data_type", rget r "dataproduct_type" (.s "Unknown")),
   ("access_url", rget r "access_url" (.s "Unknown"))]

/-- Lines 848-912: `search_alma_by_member_ous`. -/
def search_alma_by_member_ous (w : World) (member_ous_id : String) : Resp × List Call :=
  if !w.pyvoAvailable then (errResp "pyvo library not installed", [])
  else
    let normalized_uid := normalizeUid member_ous_id
    let query := memberOusQuery normalized_uid
    match w.tap query with
    | .error e => (errResp ("Member OUS search failed: " ++ e), [.tap query])
    | .ok df =>
      if df.rows.isEmpty then
        ([("count", .n 0),
          ("member_ous_id", .s normalized_uid),
          ("observations", .vlist []),
          ("summary", .s ("No ALMA data found for Member OUS ID '" ++ normalized_uid ++ "'"))],
         [.tap query])
      else
        ([("count", .n df.rows.length),
          ("member_ous_id", .s normalized_uid),
          ("observations", .vlist (df.rows.map (fun r => .vdict (memberOusObs r)))),
          ("summary", .s ("Found " ++ toString df.rows.length
            ++ " data products for Member OUS ID"))],
         [.tap query])

/-- Lines 944-966: the data-type query's conditions and text. -/
def dataTypeQuery (data_type : String) (target_name science_keyword : Option String)
    (band : Option Int) : String :=
  let conditions :=
    ["dataproduct_type = '" ++ pyLower data_type ++ "'", "science_observation = 'T'"]
    ++ (if truthyS target_name then
      ["LOWER(target_name) LIKE LOWER('%" ++ target_name.getD "" ++ "%')"] else [])
    ++ (if truthyS science_keyword then
      ["LOWER(science_keyword) LIKE LOWER('%" ++ science_keyword.getD "" ++ "%')"] else [])
    ++ (if truthyI band then
      ["band_list LIKE '%" ++ toString (band.getD 0) ++ "%'"] else [])
  "\n        SELECT TOP 100\n            target_name, s_ra, s_dec, band_list, proposal_id,\n            frequency, t_exptime, s_resolution, science_keyword\n        FROM ivoa.obscore \n        WHERE "
  ++ String.intercalate " AND " conditions ++ "\n        "

/-- Lines 980-988: one formatted observation of the data-type search. -/
def dataTypeObs (r : Row) : List (String × Val) :=
  [("target", rget r "target_name" (.s "Unknown")),
   ("band", .s (pyStr (rget r "band_list" (.s "Unknown")))),
   ("proposal_id", rget r "proposal_id" (.s "Unknown")),
   ("frequency_ghz", .q (pyRound (toQ (rget r "frequency" (.n 0))) 2)),
   ("resolution_arcsec", .q (pyRound (toQ (rget r "s_resolution" (.n 0))) 3))]

/-- Lines 919-999: `search_alma_by_data_type`.  The vocabulary check at
lines 941-942 runs before any query is built or issued. -/
def search_alma_by_data_type (w : World) (data_type : String)
    (target_name science_keyword : Option String) (band : Option Int) : Resp × List Call :=
  if !w.pyvoAvailable then (errResp "pyvo library not installed", [])
  else if !(pyLower data_type == "cube" || pyLower data_type == "image") then
    (errResp "data_type must be 'cube' or 'image'", [])
  else
    let query := dataTypeQuery data_type target_name science_keyword band
    match w.tap query with
    | .error e => (errResp ("Data type search failed: " ++ e), [.tap query])
    | .ok df =>
      if df.rows.isEmpty then
        ([("count", .n 0),
          ("data_type", .s data_type),
          ("observations", .vlist []),
          ("summary", .s ("No " ++ data_type ++ " observations found matching criteria"))],
         [.tap query])
      else
        ([("count", .n df.rows.length),
          ("showing", .n (min 20 df.rows.length)),
          ("data_type", .s data_type),
          ("observations", .vlist ((df.rows.take 20).map (fun r => .vdict (dataTypeObs r)))),
          ("summary", .s ("Found " ++ toString df.rows.length ++ " " ++ data_type
            ++ " observations"))],
         [.tap query])

/-- Lines 1033-1050: the science-keyword query's conditions and text.
An invalid `data_type` simply contributes no condition (line 1037). -/
def scienceKeywordQuery (science_keyword : String) (data_type : Option String)
    (band : Option Int) (science_observation_only : Bool) : String :=
  let conditions :=
    ["LOWER(science_keyword) LIKE LOWER('%" ++ science_keyword ++ "%')"]
    ++ (if science_observation_only then ["science_observation = 'T'"] else [])
    ++ (if truthyS data_type && (pyLower (data_type.getD "") == "cube"
          || pyLower (data_type.getD "") == "image") then
      ["dataproduct_type = '" ++ pyLower (data_type.getD "") ++ "'"] else [])
    ++ (if truthyI band then
      ["band_list LIKE '%" ++ toString (band.getD 0) ++ "%'"] else [])
  "\n        SELECT TOP 100\n            target_name, s_ra, s_dec, band_list, proposal_id,\n            frequency, t_exptime, s_resolution, science_keyword, dataproduct_type\n        FROM ivoa.obscore \n        WHERE "
  ++ String.intercalate " AND " conditions ++ "\n        "

/-- Lines 1064-1072: one formatted observation of the keyword search. -/
def scienceKeywordObs (r : Row) : List (String × Val) :=
  [("target", rget r "target_name" (.s "Unknown")),
   ("band", .s (pyStr (rget r "band_list" (.s "Unknown")))),
   ("proposal_id", rget r "proposal_id" (.s "Unknown")),
   ("data_type", rget r "dataproduct_type" (.s "Unknown")),
   ("science_keyword", rget r "science_keyword" (.s "Unknown"))]

/-- Lines 1006-1087: `search_alma_by_science_keyword`. -/
def search_alma_by_science_keyword (w : World) (science_keyword : String)
    (data_type : Option String) (band : Option Int)
    (science_observation_only : Bool) : Resp × List Call :=
  if !w.pyvoAvailable then (errResp "pyvo library not installed", [])
  else
    let query := scienceKeywordQuery science_keyword data_type band science_observation_only
    match w.tap query with
    | .error e => (errResp ("Science keyword search failed: " ++ e), [.tap query])
    | .ok df =>
      if df.rows.isEmpty then
        ([("count", .n 0),
          ("science_keyword", .s science_keyword),
          ("observations", .vlist []),
          ("summary", .s ("No observations found with science keyword '"
            ++ science_keyword ++ "'"))],
         [.tap query])
      else
        ([("count", .n df.rows.length),
          ("showing", .n (min 20 df.rows.length)),
          ("science_keyword", .s science_keyword),
          ("unique_targets", .vlist
            ((uniqueFirst (df.rows.map (fun r => rget r "target_name" .null))).take 10)),
          ("observations", .vlist ((df.rows.take 20).map (fun r => .vdict (scienceKeywordObs r)))),
          ("summary", .s ("Found " ++ toString df.rows.length
            ++ " observations with science keyword '" ++ science_keyword ++ "'"))],
         [.tap query])

/-- Lines 1116-1133: the abstract-search condition and query. -/
def abstractQuery (search_terms : String) (search_pub_abstract : Bool) : String :=
  let abstract_condition :=
    if search_pub_abstract then
      "\n                (LOWER(proposal_abstract) LIKE LOWER('%" ++ search_terms
      ++ "%')\n                 OR LOWER(pub_abstract) LIKE LOWER('%" ++ search_terms
      ++ "%'))\n            "
    else
      "LOWER(proposal_abstract) LIKE LOWER('%" ++ search_terms ++ "%')"
  "\n        SELECT TOP 100\n            target_name, s_ra, s_dec, band_list, proposal_id,\n            obs_creator_name, science_keyword, t_exptime\n        FROM ivoa.obscore \n        WHERE "
  ++ abstract_condition
  ++ "\n        AND science_observation = 'T'\n        GROUP BY target_name, s_ra, s_dec, band_list, proposal_id,\n                 obs_creator_name, science_keyword, t_exptime\n        "

/-- Lines 1147-1155: one formatted observation of the abstract search. -/
def abstractObs (r : Row) : List (String × Val) :=
  [("target", rget r "target_name" (.s "Unknown")),
   ("proposal_id", rget r "proposal_id" (.s "Unknown")),
   ("pi", rget r "obs_creator_name" (.s "Unknown")),
   ("band", .s (pyStr (rget r "band_list" (.s "Unknown")))),
   ("science_keyword", rget r "science_keyword" (.s "Unknown"))]

/-- Lines 1094-1170: `search_alma_by_abstract`. -/
def search_alma_by_abstract (w : World) (search_terms : String)
    (search_pub_abstract : Bool) : Resp × List Call :=
  if !w.pyvoAvailable then (errResp "pyvo library not installed", [])
  else
    let query := abstractQuery search_terms search_pub_abstract
    match w.tap query with
    | .error e => (errResp ("Abstract search failed: " ++ e), [.tap query])
    | .ok df =>
      if df.rows.isEmpty then
        ([("count", .n 0),
          ("search_terms", .s search_terms),
          ("observations", .vlist []),
          ("summary", .s ("No proposals found with abstract containing '"
            ++ search_terms ++ "'"))],
         [.tap query])
      else
        ([("count", .n df.rows.length),
          ("showing", .n (min 20 df.rows.length)),
          ("search_terms", .s search_terms),
          ("unique_proposals", .vlist
            ((uniqueFirst (df.rows.map (fun r => rget r "proposal_id" .null))).take 10)),
          ("observations", .vlist ((df.rows.take 20).map (fun r => .vdict (abstractObs r)))),
          ("summary", .s ("Found " ++ toString df.rows.length
            ++ " observations from proposals mentioning '" ++ search_terms ++ "'"))],
         [.tap query])

/-- Lines 1204-1207: the sensitivity measurement column selected by the
`sensitivity_type` discriminator — `"continuum"` (case-insensitively)
selects the continuum column and every other value selects the line
column. -/
def sensColumn (sensitivity_type : String) : String :=
  if pyLower sensitivity_type == "continuum" then "cont_sensitivity_bandwidth"
  else "sensitivity_10kms"

/-- Lines 1209-1229: the sensitivity query over the selected column. -/
def sensitivityQuery (max_sensitivity_mjy : ℚ) (sensitivity_type : String)
    (target_name : Option String) (band : Option Int) : String :=
  let sens_column := sensColumn sensitivity_type
  let conditions :=
    [sens_column ++ " <= " ++ toString max_sensitivity_mjy,
     sens_column ++ " > 0",
     "science_observation = 'T'"]
    ++ (if truthyS target_name then
      ["LOWER(target_name) LIKE LOWER('%" ++ target_name.getD "" ++ "%')"] else [])
    ++ (if truthyI band then
      ["band_list LIKE '%" ++ toString (band.getD 0) ++ "%'"] else [])
  "\n        SELECT TOP 100\n            target_name, s_ra, s_dec, band_list, proposal_id,\n            "
  ++ sens_column ++ " as sensitivity, s_resolution, frequency\n        FROM ivoa.obscore \n        WHERE "
  ++ String.intercalate " AND " conditions ++ "\n        ORDER BY " ++ sens_column ++ "\n        "

/-- Lines 1244-1252: one formatted observation of the sensitivity search. -/
def sensitivityObs (r : Row) : List (String × Val) :=
  [("target", rget r "target_name" (.s "Unknown")),
   ("sensitivity_mjy", .q (pyRound (toQ (rget r "sensitivity" (.n 0))) 4)),
   ("band", .s (pyStr (rget r "band_list" (.s "Unknown")))),
   ("resolution_arcsec", .q (pyRound (toQ (rget r "s_resolution" (.n 0))) 3)),
   ("proposal_id", rget r "proposal_id" (.s "Unknown"))]

/-- Lines 1177-1264: `search_alma_by_sensitivity`. -/
def search_alma_by_sensitivity (w : World) (max_sensitivity_mjy : ℚ)
    (sensitivity_type : String) (target_name : Option String)
    (band : Option Int) : Resp × List Call :=
  if !w.pyvoAvailable then (errResp "pyvo library not installed", [])
  else
    let query := sensitivityQuery max_sensitivity_mjy sensitivity_type target_name band
    match w.tap query with
    | .error e => (errResp ("Sensitivity search failed: " ++ e), [.tap query])
    | .ok df =>
      if df.rows.isEmpty then
        ([("count", .n 0),
          ("max_sensitivity_mjy", .q max_sensitivity_mjy),
          ("sensitivity_type", .s sensitivity_type),
          ("observations", .vlist []),
          ("summary", .s ("No observations found with " ++ sensitivity_type
            ++ " sensitivity <= " ++ toString max_sensitivity_mjy ++ " mJy/beam"))],
         [.tap query])
      else
        ([("count", .n df.rows.length),
          ("showing", .n (min 20 df.rows.length)),
          ("max_sensitivity_mjy", .q max_sensitivity_mjy),
          ("sensitivity_type", .s sensitivity_type),
          ("observations", .vlist ((df.rows.take 20).map (fun r => .vdict (sensitivityObs r)))),
          ("summary", .s ("Found " ++ toString df.rows.length ++ " observations with "
            ++ sensitivity_type ++ " sensitivity <= " ++ toString max_sensitivity_mjy
            ++ " mJy/beam"))],
         [.tap query])

/-- Lines 1322-1328: the per-source cone query of the batch runner. -/
def batchConeQuery (ra_deg dec_deg radius_deg : ℚ) : String :=
  "\n                SELECT TOP 50\n                    target_name, band_list, proposal_id, t_exptime\n                FROM ivoa.obscore \n                WHERE CONTAINS(POINT('ICRS', s_ra, s_dec), \n                               CIRCLE('ICRS', "
  ++ toString ra_deg ++ ", " ++ toString dec_deg ++ ", " ++ toString radius_deg
  ++ ")) = 1\n                "

/-- Lines 1300-1355: processing of one batch entry — its per-item result
mapping, its contribution to `total_observations`, and its collaborator
calls.  The inner `try`/`except` turns any raised exception into the
`status = "error"` mapping for just this entry. -/
def batchItem (w : World) (radius_arcmin : ℚ) (source_name : String) :
    Resp × Nat × List Call :=
  match w.simbad source_name with
  | .error e =>
    ([("status", .s "error"), ("count", .n 0), ("message", .s e)],
     0, [.simbadQ source_name])
  | .ok none =>
    ([("status", .s "not_resolved"), ("count", .n 0),
      ("message", .s ("Could not resolve '" ++ source_name ++ "' in SIMBAD"))],
     0, [.simbadQ source_name])
  | .ok (some (ra_deg, dec_deg)) =>
    let q := batchConeQuery ra_deg dec_deg (radius_arcmin / 60)
    match w.tap q with
    | .error e =>
      ([("status", .s "error"), ("count", .n 0), ("message", .s e)],
       0, [.simbadQ source_name, .tap q])
    | .ok df =>
      if df.rows.isEmpty then
        ([("status", .s "no_data"), ("count", .n 0),
          ("coordinates", .vdict [("ra", .q (pyRound ra_deg 4)),
            ("dec", .q (pyRound dec_deg 4))]),
          ("message", .s "No ALMA observations found")],
         0, [.simbadQ source_name, .tap q])
      else
        ([("status", .s "found"), ("count", .n df.rows.length),
          ("coordinates", .vdict [("ra", .q (pyRound ra_deg 4)),
            ("dec", .q (pyRound dec_deg 4))]),
          ("bands_observed", .vlist
            (uniqueFirst (df.rows.map (fun r => rget r "band_list" .null))))],
         df.rows.length, [.simbadQ source_name, .tap q])

/-- Python dict assignment `m[k] = v`: replace in place when the key
exists (keeping its position), otherwise append. -/
def dictInsert (m : List (String × Val)) (k : String) (v : Val) : List (String × Val) :=
  if m.any (fun p => p.1 == k) then
    m.map (fun p => if p.1 == k then (k, v) else p)
  else m ++ [(k, v)]

/-- The `for source_name in source_names` loop (lines 1299-1355),
carrying `results_by_source`, `total_observations` and the trace. -/
def batchLoop (w : World) (radius_arcmin : ℚ) :
    List String → List (String × Val) → Nat →
    List (String × Val) × Nat × List Call
  | [], m, tot => (m, tot, [])
  | nm :: rest, m, tot =>
    let item := batchItem w radius_arcmin nm
    let next := batchLoop w radius_arcmin rest
      (dictInsert m nm (.vdict item.1)) (tot + item.2.1)
    (next.1, next.2.1, item.2.2 ++ next.2.2)

/-- Line 1358: `s.get("status") == "found"` on a per-item mapping. -/
def statusIsFound : Val → Bool
  | .vdict d => match getV d "status" with
    | some (.s st) => st == "found"
    | _ => false
  | _ => false

/-- Lines 1271-1369: `query_alma_multiple_sources`, the batch runner. -/
def query_alma_multiple_sources (w : World) (source_names : List String)
    (radius_arcmin : ℚ) : Resp × List Call :=
  if !w.simbadAvailable then
    (errResp "astroquery not installed - cannot resolve target names", [])
  else if !w.pyvoAvailable then
    (errResp "pyvo library not installed", [])
  else
    let names := source_names.take 20
    let res := batchLoop w radius_arcmin names [] 0
    let sources_with_data := (res.1.filter (fun p => statusIsFound p.2)).length
    ([("total_sources_queried", .n names.length),
      ("sources_with_alma_data", .n sources_with_data),
      ("total_observations", .n res.2.1),
      ("results_by_source", .vdict res.1),
      ("summary", .s (toString sources_with_data ++ " of " ++ toString names.length
        ++ " sources have ALMA observations"))],
     res.2.2)

/-! ## Lemmas about the string primitives -/

/-- `replaceAllAux` does not depend on the fuel once it covers the
input's length. -/
theorem replaceAllAux_fuel_eq (o : Char) (old new : List Char) :
    ∀ (n : Nat) (s : List Char), s.length ≤ n → ∀ f₁ f₂, s.length ≤ f₁ → s.length ≤ f₂ →
      replaceAllAux f₁ s o old new = replaceAllAux f₂ s o old new := by
  intro n
  induction n with
  | zero =>
    intro s hs f₁ f₂ _ _
    have hnil : s = [] := List.length_eq_zero.mp (Nat.le_zero.mp hs)
    subst hnil
    cases f₁ <;> cases f₂ <;> rfl
  | succ n ih =>
    intro s hs f₁ f₂ h₁ h₂
    cases s with
    | nil => cases f₁ <;> cases f₂ <;> rfl
    | cons c rest =>
      cases f₁ with
      | zero => simp at h₁
      | succ g₁ =>
        cases f₂ with
        | zero => simp at h₂
        | succ g₂ =>
          simp only [List.length_cons] at hs h₁ h₂
          simp only [replaceAllAux]
          by_cases hpre : (o :: old).isPrefixOf (c :: rest) = true
          · rw [if_pos hpre, if_pos hpre]
            have hd : (rest.drop old.length).length ≤ rest.length := by
              simp [List.length_drop]
            congr 1
            exact ih (rest.drop old.length) (by omega) g₁ g₂ (by omega) (by omega)
          · rw [if_neg hpre, if_neg hpre]
            congr 1
            exact ih rest (by omega) g₁ g₂ (by omega) (by omega)

/-- Step equation of `replaceAll` when the pattern matches at the head. -/
theorem replaceAll_cons_pos {o : Char} {old new : List Char} {c : Char} {rest : List Char}
    (h : (o :: old).isPrefixOf (c :: rest) = true) :
    replaceAll (c :: rest) o old new = new ++ replaceAll (rest.drop old.length) o old new := by
  unfold replaceAll
  simp only [List.length_cons, replaceAllAux, h, if_true]
  congr 1
  exact replaceAllAux_fuel_eq o old new (rest.drop old.length).length _ le_rfl _ _
    (by simp [List.length_drop]) le_rfl

/-- Step equation of `replaceAll` when the pattern does not match at the
head. -/
theorem replaceAll_cons_neg {o : Char} {old new : List Char} {c : Char} {rest : List Char}
    (h : (o :: old).isPrefixOf (c :: rest) = false) :
    replaceAll (c :: rest) o old new = c :: replaceAll rest o old new := by
  unfold replaceAll
  simp only [List.length_cons, replaceAllAux, h, if_false, Bool.false_eq_true]

/-- `replaceAll` passes over a block containing no copy of the pattern's
first character. -/
theorem replaceAll_skip {o : Char} {old new : List Char} (x s : List Char)
    (hx : ∀ ch ∈ x, ch ≠ o) :
    replaceAll (x ++ s) o old new = x ++ replaceAll s o old new := by
  induction x with
  | nil => simp
  | cons c x' ih =>
    have hc : c ≠ o := hx c (by simp)
    have hoc : (o == c) = false := by
      simp only [beq_eq_false_iff_ne]
      exact fun h => hc h.symm
    have hpre : (o :: old).isPrefixOf (c :: (x' ++ s)) = false := by
      simp [List.isPrefixOf, hoc]
    rw [List.cons_append, replaceAll_cons_neg hpre,
      ih (fun ch hch => hx ch (by simp [hch])), List.cons_append]

/-- No two adjacent underscores anywhere in the list. -/
def noAdjUU : List Char → Bool
  | c₁ :: c₂ :: rest => !(c₁ == '_' && c₂ == '_') && noAdjUU (c₂ :: rest)
  | _ => true

/-- `noAdjUU` ignores a non-underscore head. -/
theorem noAdjUU_cons_ne {c : Char} (t : List Char) (hc : c ≠ '_') :
    noAdjUU (c :: t) = noAdjUU t := by
  have hcb : (c == '_') = false := by simp [hc]
  cases t with
  | nil => rfl
  | cons d t' => simp [noAdjUU, hcb]

/-- `noAdjUU` ignores a leading underscore-free block. -/
theorem noAdjUU_append_uFree (x : List Char) (s : List Char)
    (hx : ∀ ch ∈ x, ch ≠ '_') :
    noAdjUU (x ++ s) = noAdjUU s := by
  induction x with
  | nil => simp
  | cons c x' ih =>
    rw [List.cons_append, noAdjUU_cons_ne _ (hx c (by simp)),
      ih (fun ch hch => hx ch (by simp [hch]))]

/-- An underscore followed by a non-underscore keeps `noAdjUU`. -/
theorem noAdjUU_underscore_cons {d : Char} (t : List Char) (hd : d ≠ '_') :
    noAdjUU ('_' :: d :: t) = noAdjUU (d :: t) := by
  have hdb : (d == '_') = false := by simp [hd]
  simp [noAdjUU, hdb]

/-- A wholly underscore-free list satisfies `noAdjUU`. -/
theorem noAdjUU_of_uFree (x : List Char) (hx : ∀ ch ∈ x, ch ≠ '_') :
    noAdjUU x = true := by
  have h := noAdjUU_append_uFree x [] hx
  simpa using h

/-- Replacing `___` leaves a list with no adjacent underscores unchanged. -/
theorem replaceAll_triple_noAdj (new : List Char) :
    ∀ s : List Char, noAdjUU s = true → replaceAll s '_' ['_', '_'] new = s := by
  intro s
  induction s with
  | nil => intro _; rfl
  | cons c rest ih =>
    intro h
    have hpre : (('_' : Char) :: ['_', '_']).isPrefixOf (c :: rest) = false := by
      cases hcu : (('_' : Char) :: ['_', '_']).isPrefixOf (c :: rest) with
      | false => rfl
      | true =>
        exfalso
        have hc : ('_' == c) = true := by
          cases hcc : ('_' == c) with
          | true => rfl
          | false => simp [List.isPrefixOf, hcc] at hcu
        have hceq : c = '_' := (beq_iff_eq.mp hc).symm
        subst hceq
        cases rest with
        | nil => simp [List.isPrefixOf] at hcu
        | cons d rest' =>
          have hd : ('_' == d) = true := by
            cases hdd : ('_' == d) with
            | true => rfl
            | false => simp [List.isPrefixOf, hdd] at hcu
          have hdeq : d = '_' := (beq_iff_eq.mp hd).symm
          subst hdeq
          simp [noAdjUU] at h
    rw [replaceAll_cons_neg hpre]
    have hrest : noAdjUU rest = true := by
      cases rest with
      | nil => rfl
      | cons d rest' =>
        have := h
        simp [noAdjUU] at this ⊢
        exact this.2
    rw [ih hrest]

/-- Replacing a single underscore at the head of the list. -/
theorem replaceAll_single_hit (t new : List Char) :
    replaceAll ('_' :: t) '_' [] new = new ++ replaceAll t '_' [] new := by
  have h : (('_' : Char) :: []).isPrefixOf ('_' :: t) = true := by
    simp [List.isPrefixOf]
  have h2 := @replaceAll_cons_pos '_' [] new '_' t h
  simpa using h2

/-- Stage one of `normalizeUid` on a well-formed alternate identifier:
the `___` group becomes `://` and nothing else changes. -/
theorem replaceTriple (a b c : List Char)
    (ha : ∀ ch ∈ a, ch ≠ '_') (hb : ∀ ch ∈ b, ch ≠ '_') (hc : ∀ ch ∈ c, ch ≠ '_')
    (hbne : b ≠ []) (hcne : c ≠ []) :
    replaceAll ("uid___".data ++ (a ++ '_' :: (b ++ '_' :: c))) '_' ['_', '_'] "://".data
      = "uid://".data ++ (a ++ '_' :: (b ++ '_' :: c)) := by
  have huid : ∀ ch ∈ (['u', 'i', 'd'] : List Char), ch ≠ '_' := by decide
  have hdata : "uid___".data ++ (a ++ '_' :: (b ++ '_' :: c))
      = ['u', 'i', 'd'] ++ ('_' :: '_' :: '_' :: (a ++ '_' :: (b ++ '_' :: c))) := rfl
  rw [hdata, replaceAll_skip ['u', 'i', 'd'] _ huid]
  have hpre : (('_' : Char) :: ['_', '_']).isPrefixOf
      ('_' :: '_' :: '_' :: (a ++ '_' :: (b ++ '_' :: c))) = true := by
    simp [List.isPrefixOf]
  rw [replaceAll_cons_pos hpre]
  have hnoadj : noAdjUU (a ++ '_' :: (b ++ '_' :: c)) = true := by
    rw [noAdjUU_append_uFree a _ ha]
    cases b with
    | nil => exact absurd rfl hbne
    | cons d b' =>
      rw [List.cons_append, noAdjUU_underscore_cons _ (hb d (by simp)),
        ← List.cons_append, noAdjUU_append_uFree (d :: b') _ hb]
      cases c with
      | nil => exact absurd rfl hcne
      | cons e c' =>
        rw [noAdjUU_underscore_cons _ (hc e (by simp))]
        exact noAdjUU_of_uFree (e :: c') hc
  have hdrop : ('_' :: '_' :: (a ++ '_' :: (b ++ '_' :: c))).drop
      (['_', '_'] : List Char).length = a ++ '_' :: (b ++ '_' :: c) := rfl
  rw [hdrop, replaceAll_triple_noAdj _ _ hnoadj]
  rfl

/-- Stage two of `normalizeUid`: every remaining underscore becomes a
slash. -/
theorem replaceUnderscores (a b c : List Char)
    (ha : ∀ ch ∈ a, ch ≠ '_') (hb : ∀ ch ∈ b, ch ≠ '_') (hc : ∀ ch ∈ c, ch ≠ '_') :
    replaceAll ("uid://".data ++ (a ++ '_' :: (b ++ '_' :: c))) '_' [] "/".data
      = "uid://".data ++ (a ++ '/' :: (b ++ '/' :: c)) := by
  have huid : ∀ ch ∈ (['u', 'i', 'd', ':', '/', '/'] : List Char), ch ≠ '_' := by decide
  have hdata : "uid://".data ++ (a ++ '_' :: (b ++ '_' :: c))
      = ['u', 'i', 'd', ':', '/', '/'] ++ (a ++ '_' :: (b ++ '_' :: c)) := rfl
  rw [hdata, replaceAll_skip _ _ huid, replaceAll_skip a _ ha,
    replaceAll_single_hit, replaceAll_skip b _ hb, replaceAll_single_hit]
  have hcnil : c = c ++ [] := by simp
  rw [hcnil, replaceAll_skip c [] hc]
  rfl

/-! ## Concrete collaborator worlds for witnesses and counterexamples -/

/-- A result table with no rows. -/
def emptyDf : Df := ⟨[], []⟩

/-- Everything available; every collaborator call succeeds, resolution
yields (1, 2), every search returns an empty table. -/
def wOk : World :=
  { alminerAvailable := true, pyvoAvailable := true, simbadAvailable := true,
    simbad := fun _ => .ok (some (1, 2)),
    conesearch := fun _ _ _ _ => .ok emptyDf,
    keysearch := fun _ => .ok emptyDf,
    lineCoverage := fun _ _ _ => .ok emptyDf,
    tap := fun _ => .ok emptyDf }

/-- Everything available; resolution yields (10, 20) but the alminer cone
search raises. -/
def wConeFail : World :=
  { alminerAvailable := true, pyvoAvailable := true, simbadAvailable := true,
    simbad := fun _ => .ok (some (10, 20)),
    conesearch := fun _ _ _ _ => .error "network down",
    keysearch := fun _ => .ok emptyDf,
    lineCoverage := fun _ _ _ => .ok emptyDf,
    tap := fun _ => .ok emptyDf }

/-- Everything available; no name resolves. -/
def wNotRes : World :=
  { alminerAvailable := true, pyvoAvailable := true, simbadAvailable := true,
    simbad := fun _ => .ok none,
    conesearch := fun _ _ _ _ => .ok emptyDf,
    keysearch := fun _ => .ok emptyDf,
    lineCoverage := fun _ _ _ => .ok emptyDf,
    tap := fun _ => .ok emptyDf }

/-- Everything available but every TAP query raises. -/
def wTapFail : World :=
  { alminerAvailable := true, pyvoAvailable := true, simbadAvailable := true,
    simbad := fun _ => .ok (some (1, 2)),
    conesearch := fun _ _ _ _ => .ok emptyDf,
    keysearch := fun _ => .ok emptyDf,
    lineCoverage := fun _ _ _ => .ok emptyDf,
    tap := fun _ => .error "boom" }

/-- Everything available but the resolver raises on every name. -/
def wResFail : World :=
  { alminerAvailable := true, pyvoAvailable := true, simbadAvailable := true,
    simbad := fun _ => .error "simbad down",
    conesearch := fun _ _ _ _ => .ok emptyDf,
    keysearch := fun _ => .ok emptyDf,
    lineCoverage := fun _ _ _ => .ok emptyDf,
    tap := fun _ => .ok emptyDf }

/-- No collaborator is importable. -/
def wNoPyvo : World :=
  { alminerAvailable := false, pyvoAvailable := false, simbadAvailable := false,
    simbad := fun _ => .ok none,
    conesearch := fun _ _ _ _ => .error "unavailable",
    keysearch := fun _ => .error "unavailable",
    lineCoverage := fun _ _ _ => .error "unavailable",
    tap := fun _ => .error "unavailable" }

/-! ## Claim C5: dataset-identifier normalization -/

/-- C5: every dataset identifier in the underscore-delimited alternate
form `uid___A_B_C` (underscore-free segments, the latter two nonempty) is
rewritten to the canonical URI form `uid://A/B/C` — the first separator
group becomes `://` and every subsequent separator becomes `/` — and the
dataset-id search then issues exactly the equality-filter query over the
normalized identifier. -/
theorem alma_c5_uid_normalization (w : World) (a b c : String)
    (ha : ∀ ch ∈ a.data, ch ≠ '_') (hb : ∀ ch ∈ b.data, ch ≠ '_')
    (hc : ∀ ch ∈ c.data, ch ≠ '_') (hbne : b ≠ "") (hcne : c ≠ "")
    (hp : w.pyvoAvailable = true) :
    normalizeUid ("uid___" ++ a ++ "_" ++ b ++ "_" ++ c)
      = "uid://" ++ a ++ "/" ++ b ++ "/" ++ c
    ∧ (search_alma_by_member_ous w ("uid___" ++ a ++ "_" ++ b ++ "_" ++ c)).2
      = [Call.tap (memberOusQuery ("uid://" ++ a ++ "/" ++ b ++ "/" ++ c))] := by
  have hbd : b.data ≠ [] := fun h => hbne (String.ext h)
  have hcd : c.data ≠ [] := fun h => hcne (String.ext h)
  have hd1 : ("uid___" ++ a ++ "_" ++ b ++ "_" ++ c).data
      = "uid___".data ++ (a.data ++ '_' :: (b.data ++ '_' :: c.data)) := by
    simp [String.data_append]
  have h1 : pyReplace ("uid___" ++ a ++ "_" ++ b ++ "_" ++ c) "___" "://"
      = ⟨"uid://".data ++ (a.data ++ '_' :: (b.data ++ '_' :: c.data))⟩ := by
    show (⟨replaceAll ("uid___" ++ a ++ "_" ++ b ++ "_" ++ c).data '_' ['_', '_'] "://".data⟩ : String) = _
    rw [hd1, replaceTriple a.data b.data c.data ha hb hc hbd hcd]
  have h2 : normalizeUid ("uid___" ++ a ++ "_" ++ b ++ "_" ++ c)
      = "uid://" ++ a ++ "/" ++ b ++ "/" ++ c := by
    unfold normalizeUid
    rw [h1]
    show (⟨replaceAll ("uid://".data ++ (a.data ++ '_' :: (b.data ++ '_' :: c.data))) '_' [] "/".data⟩ : String) = _
    rw [replaceUnderscores a.data b.data c.data ha hb hc]
    apply String.ext
    simp [String.data_append]
  refine ⟨h2, ?_⟩
  unfold search_alma_by_member_ous
  rw [hp, h2]
  cases htap : w.tap (memberOusQuery ("uid://" ++ a ++ "/" ++ b ++ "/" ++ c)) with
  | error e => simp [htap]
  | ok df => cases hdf : df.rows.isEmpty <;> simp [htap, hdf]

/-- C5 witness: the documented example identifier normalizes to the
canonical form and is the one used in the issued query. -/
theorem alma_c5_witness :
    normalizeUid "uid___A001_X123_X456" = "uid://A001/X123/X456"
    ∧ (search_alma_by_member_ous wOk "uid___A001_X123_X456").2
      = [Call.tap (memberOusQuery "uid://A001/X123/X456")] := by
  have h := alma_c5_uid_normalization wOk "A001" "X123" "X456"
    (by decide) (by decide) (by decide) (by decide) (by decide) rfl
  exact ⟨h.1, h.2⟩

/-! ## Claim C2: target-search fallback -/

/-- C2 counterexample: with the preferred backend available but raising,
the operation returns the error mapping directly; the recorded trace
shows the fallback TAP backend was never attempted. -/
theorem alma_c2_counterexample :
    search_alma_by_target wConeFail "M87" 1 true
      = (errResp "ALMA search failed: network down",
         [Call.simbadQ "M87", Call.cone 10 20 (1/60) true]) := by
  rfl

/-- C2 (amended): the declarative fallback runs only when the preferred
backend is unavailable; when the preferred backend is available and its
execution raises, the operation reports the failure without attempting
the fallback. -/
theorem alma_c2_fallback (w : World) (t : String) (r : ℚ) (p : Bool)
    (ra dec : ℚ) (e : String)
    (hs : w.simbadAvailable = true)
    (hres : w.simbad t = .ok (some (ra, dec))) :
    (w.alminerAvailable = true →
      w.conesearch ra dec (r / 60) p = .error e →
      search_alma_by_target w t r p
        = (errResp ("ALMA search failed: " ++ e),
           [Call.simbadQ t, Call.cone ra dec (r / 60) p]))
    ∧ (w.alminerAvailable = false →
      search_alma_by_target w t r p
        = ((search_alma_by_position w ra dec r p).1,
           Call.simbadQ t :: (search_alma_by_position w ra dec r p).2)) := by
  constructor
  · intro ha hc
    unfold search_alma_by_target
    rw [hs]
    simp [hres, ha, hc]
  · intro ha
    unfold search_alma_by_target
    rw [hs]
    simp [hres, ha]

/-- C2 witness: the amended statement at a concrete world in which the
preferred backend raises. -/
theorem alma_c2_witness :
    search_alma_by_target wConeFail "NGC 1068" 2 false
      = (errResp "ALMA search failed: network down",
         [Call.simbadQ "NGC 1068", Call.cone 10 20 (2/60) false]) := by
  have h := alma_c2_fallback wConeFail "NGC 1068" 2 false 10 20 "network down" rfl rfl
  exact h.1 rfl rfl

/-! ## Claim C3: sensitivity column selection -/

/-- C3 counterexample: a discriminator that is neither `continuum` nor
`line` selects the line column `sensitivity_10kms`, not the continuum
column the claim requires. -/
theorem alma_c3_counterexample :
    sensColumn "invalid" = "sensitivity_10kms"
    ∧ sensColumn "invalid" ≠ "cont_sensitivity_bandwidth" := by
  exact ⟨rfl, by decide⟩

/-- C3 (amended): `continuum` (case-insensitively) selects the continuum
column and every other discriminator — `line` or invalid — selects the
line column; the sensitivity search issues exactly the query built over
that column. -/
theorem alma_c3_sensitivity_column (w : World) (maxS : ℚ) (t : String)
    (tn : Option String) (b : Option Int) (hp : w.pyvoAvailable = true) :
    (search_alma_by_sensitivity w maxS t tn b).2
      = [Call.tap (sensitivityQuery maxS t tn b)]
    ∧ (pyLower t = "continuum" → sensColumn t = "cont_sensitivity_bandwidth")
    ∧ (pyLower t ≠ "continuum" → sensColumn t = "sensitivity_10kms") := by
  refine ⟨?_, ?_, ?_⟩
  · unfold search_alma_by_sensitivity
    rw [hp]
    cases htap : w.tap (sensitivityQuery maxS t tn b) with
    | error e => simp [htap]
    | ok df => cases hdf : df.rows.isEmpty <;> simp [htap, hdf]
  · intro h
    simp [sensColumn, h]
  · intro h
    simp [sensColumn, beq_iff_eq, h]

/-- C3 witness: with `sensitivity_type = "line"` the line column is the
one selected and queried. -/
theorem alma_c3_witness :
    (search_alma_by_sensitivity wOk 5 "line" none none).2
      = [Call.tap (sensitivityQuery 5 "line" none none)]
    ∧ sensColumn "line" = "sensitivity_10kms" := by
  have h := alma_c3_sensitivity_column wOk 5 "line" none none rfl
  exact ⟨h.1, h.2.2 (by decide)⟩

/-! ## Claim C4: raw-query row cap -/

/-- C4 counterexample: `max_rows = 0` yields an effective cap of 0,
outside the claimed interval [1, 1000], and a capless COUNT query is
executed with no cap injected. -/
theorem alma_c4_counterexample :
    min (0 : Int) 1000 = 0
    ∧ ¬(1 ≤ min (0 : Int) 1000)
    ∧ (run_alma_tap_query wOk "SELECT COUNT(*) FROM ivoa.obscore" 0).2
      = [Call.tap "SELECT COUNT(*) FROM ivoa.obscore"] := by
  refine ⟨rfl, by decide, rfl⟩

/-- C4 (amended): the effective cap is `min(max_rows, 1000)` — an upper
clamp only, defaulting to 100 — and the cap is injected exactly when the
uppercased, stripped query starts with `SELECT` and contains neither
`TOP` nor `COUNT` as a substring; the executed query is the injected
text. -/
theorem alma_c4_row_cap (w : World) (sql : String) (mr : Int)
    (hp : w.pyvoAvailable = true) :
    (run_alma_tap_query w sql mr).2 = [Call.tap (injectTop sql (min mr 1000))]
    ∧ run_alma_tap_query_default w sql = run_alma_tap_query w sql 100
    ∧ (pyStartsWith (pyStrip (pyUpper sql)) "SELECT" = true →
       pyContains (pyStrip (pyUpper sql)) "TOP" = false →
       pyContains (pyStrip (pyUpper sql)) "COUNT" = false →
       injectTop sql (min mr 1000)
         = pyReplace1 sql "SELECT" ("SELECT TOP " ++ toString (min mr 1000)))
    ∧ (pyContains (pyStrip (pyUpper sql)) "TOP" = true →
       injectTop sql (min mr 1000) = sql) := by
  refine ⟨?_, rfl, ?_, ?_⟩
  · unfold run_alma_tap_query
    rw [hp]
    cases htap : w.tap (injectTop sql (min mr 1000)) with
    | error e => simp [htap]
    | ok df => cases hdf : df.rows.isEmpty <;> simp [htap, hdf]
  · intro h1 h2 h3
    unfold injectTop
    simp [h1, h2, h3]
  · intro h
    unfold injectTop
    simp [h]

/-- C4 witness: a capless plain SELECT at `max_rows = 5` executes with
`TOP 5` injected. -/
theorem alma_c4_witness :
    (run_alma_tap_query wOk "SELECT x FROM ivoa.obscore" 5).2
      = [Call.tap "SELECT TOP 5 x FROM ivoa.obscore"] := by
  have h := alma_c4_row_cap wOk "SELECT x FROM ivoa.obscore" 5 rfl
  exact h.1.trans (by rfl)

/-! ## Claim C9: data-type vocabulary validation -/

/-- An invalid `data_type` contributes no condition to the
science-keyword query: the built text equals the one built with no
`data_type` at all. -/
theorem scienceKeywordQuery_invalid_dt (k dt : String) (b : Option Int) (so : Bool)
    (h1 : pyLower dt ≠ "cube") (h2 : pyLower dt ≠ "image") :
    scienceKeywordQuery k (some dt) b so = scienceKeywordQuery k none b so := by
  unfold scienceKeywordQuery
  by_cases hdt : dt = ""
  · subst hdt
    simp [truthyS]
  · simp [truthyS, hdt, beq_iff_eq, h1, h2]

/-- C9 counterexample: the science-keyword search given an invalid
`data_type` returns a non-error response and still issues a remote
query, instead of the claimed validation failure. -/
theorem alma_c9_counterexample :
    getV (search_alma_by_science_keyword wOk "Quasars" (some "spectrum") none true).1 "error"
      = none
    ∧ (search_alma_by_science_keyword wOk "Quasars" (some "spectrum") none true).2
      = [Call.tap (scienceKeywordQuery "Quasars" (some "spectrum") none true)] := by
  exact ⟨rfl, rfl⟩

/-- C9 (amended): only the data-type search validates the vocabulary —
an invalid `data_type` there yields the error mapping with no query
issued — while the science-keyword search silently drops an invalid
`data_type`, behaving exactly as if none had been supplied. -/
theorem alma_c9_data_type_validation (w : World) (dt : String)
    (tn sk : Option String) (b : Option Int) (k : String) (so : Bool)
    (hp : w.pyvoAvailable = true)
    (h1 : pyLower dt ≠ "cube") (h2 : pyLower dt ≠ "image") :
    search_alma_by_data_type w dt tn sk b
      = (errResp "data_type must be 'cube' or 'image'", [])
    ∧ search_alma_by_science_keyword w k (some dt) b so
      = search_alma_by_science_keyword w k none b so := by
  constructor
  · unfold search_alma_by_data_type
    rw [hp]
    simp [beq_iff_eq, h1, h2]
  · unfold search_alma_by_science_keyword
    rw [scienceKeywordQuery_invalid_dt k dt b so h1 h2]

/-- C9 witness: the amended statement at the invalid value `spectrum`. -/
theorem alma_c9_witness :
    search_alma_by_data_type wOk "spectrum" none none none
      = (errResp "data_type must be 'cube' or 'image'", [])
    ∧ search_alma_by_science_keyword wOk "Quasars" (some "spectrum") none true
      = search_alma_by_science_keyword wOk "Quasars" none none true := by
  exact alma_c9_data_type_validation wOk "spectrum" none none none "Quasars" true rfl
    (by decide) (by decide)

/-! ## Claim C10: escaping of interpolated values -/

/-- Count of single-quote characters in a string. -/
def quoteCount (s : String) : Nat := s.data.countP (fun ch => ch == '\'')

/-- Modelled from the spec: the ADQL escaping (doubling of single
quotes) that the design note prescribes for every interpolated value.
No query builder in the source calls any such function. -/
def adqlEscape (s : String) : String := pyReplace s "'" "''"

/-- Modelled from the spec: the source-name query as it would read if the
user value were routed through the escaping function. -/
def sourceNameQuerySpec (source_name : String) (exact_match : Bool) : String :=
  sourceNameQuery (adqlEscape source_name) exact_match

/-- The fixed text preceding the value in the exact-match branch of the
source-name query. -/
def srcExactPre : String :=
  "\n            SELECT TOP 100\n                target_name, s_ra, s_dec, band_list, proposal_id,\n                frequency, t_exptime, s_resolution, dataproduct_type\n            FROM ivoa.obscore \n            WHERE target_name = '"

/-- The fixed text preceding the value in the substring branch of the
source-name query. -/
def srcLikePre : String :=
  "\n            SELECT TOP 100\n                target_name, s_ra, s_dec, band_list, proposal_id,\n                frequency, t_exptime, s_resolution, dataproduct_type\n            FROM ivoa.obscore \n            WHERE LOWER(target_name) LIKE LOWER('%"

/-- The fixed text preceding the WHERE clause of the proposal query. -/
def propPre : String :=
  "\n        SELECT TOP 100\n            target_name, s_ra, s_dec, band_list, proposal_id, obs_creator_name\n        FROM ivoa.obscore \n        WHERE "

/-- Quote counting distributes over concatenation. -/
theorem quoteCount_append (x y : String) :
    quoteCount (x ++ y) = quoteCount x + quoteCount y := by
  simp [quoteCount, String.data_append, List.countP_append]

/-- C10 counterexample: for a value containing a single quote the
constructed query differs from the escaped construction and carries an
odd number of quote characters, so the value cannot be sitting inside the
query as a properly escaped literal. -/
theorem alma_c10_counterexample :
    sourceNameQuery "M'87" false ≠ sourceNameQuerySpec "M'87" false
    ∧ quoteCount (sourceNameQuery "M'87" false) = 3
    ∧ ¬ Even (quoteCount (sourceNameQuery "M'87" false))
    ∧ Even (quoteCount (sourceNameQuerySpec "M'87" false)) := by
  refine ⟨by decide, rfl, by decide, by decide⟩

/-- C10 (amended): no escaping is applied anywhere — every user value is
interpolated verbatim, so each constructed query carries the template's
two quotes plus every quote of the value itself (shown for both
source-name branches and the proposal-id condition). -/
theorem alma_c10_no_escaping (s : String) (hs : s ≠ "") :
    sourceNameQuery s true = srcExactPre ++ s ++ "'\n            "
    ∧ sourceNameQuery s false = srcLikePre ++ s ++ "%')\n            "
    ∧ quoteCount (sourceNameQuery s true) = 2 + quoteCount s
    ∧ quoteCount (sourceNameQuery s false) = 2 + quoteCount s
    ∧ proposalQuery (some s) none
      = propPre ++ ("proposal_id LIKE '%" ++ s ++ "%'") ++ "\n        "
    ∧ quoteCount (proposalQuery (some s) none) = 2 + quoteCount s := by
  have hprop : proposalQuery (some s) none
      = propPre ++ ("proposal_id LIKE '%" ++ s ++ "%'") ++ "\n        " := by
    unfold proposalQuery
    simp [truthyS, hs, String.intercalate, propPre]
    rfl
  refine ⟨rfl, rfl, ?_, ?_, hprop, ?_⟩
  · show quoteCount (srcExactPre ++ s ++ "'\n            ") = 2 + quoteCount s
    rw [quoteCount_append, quoteCount_append]
    have h1 : quoteCount srcExactPre = 1 := rfl
    have h2 : quoteCount "'\n            " = 1 := rfl
    omega
  · show quoteCount (srcLikePre ++ s ++ "%')\n            ") = 2 + quoteCount s
    rw [quoteCount_append, quoteCount_append]
    have h1 : quoteCount srcLikePre = 1 := rfl
    have h2 : quoteCount "%')\n            " = 1 := rfl
    omega
  · rw [hprop, quoteCount_append, quoteCount_append, quoteCount_append, quoteCount_append]
    have h1 : quoteCount propPre = 0 := rfl
    have h2 : quoteCount "proposal_id LIKE '%" = 1 := rfl
    have h3 : quoteCount "%'" = 1 := rfl
    have h4 : quoteCount "\n        " = 0 := rfl
    omega

/-- C10 witness: verbatim interpolation at a concrete quoted value. -/
theorem alma_c10_witness :
    quoteCount (sourceNameQuery "O'Brien" false) = 2 + quoteCount "O'Brien" := by
  have h := alma_c10_no_escaping "O'Brien" (by decide)
  exact h.2.2.2.1

/-! ## Batch-runner lemmas -/

/-- Keys of a response mapping, in order. -/
def mapKeys (m : List (String × Val)) : List String := m.map Prod.fst

/-- Membership test used by the Python dict model. -/
def keyMem (ks : List String) (k : String) : Bool := ks.any (fun x => x == k)

/-- Key order of a Python dict after inserting every name in sequence:
first occurrences, in input order. -/
def pyKeys (names : List String) : List String :=
  names.foldl (fun ks nm => if keyMem ks nm then ks else ks ++ [nm]) []

/-- A mapping with no binding for `k` looks up to `none`. -/
theorem getV_none_of_any_false (m : List (String × Val)) (k : String)
    (h : m.any (fun p => p.1 == k) = false) : getV m k = none := by
  induction m with
  | nil => rfl
  | cons p m' ih =>
    obtain ⟨k', v'⟩ := p
    simp only [List.any_cons, Bool.or_eq_false_iff] at h
    obtain ⟨h1, h2⟩ := h
    have hne : k' ≠ k := by simpa using h1
    simp [getV, hne, ih h2]

/-- Lookup distributes over appending mappings. -/
theorem getV_append (m m₂ : List (String × Val)) (k : String) :
    getV (m ++ m₂) k = match getV m k with
      | some v => some v
      | none => getV m₂ k := by
  induction m with
  | nil => rfl
  | cons p m' ih =>
    obtain ⟨k', v'⟩ := p
    by_cases h : k' = k
    · simp [getV, h]
    · simp [getV, h, ih]

/-- In-place replacement of key `k` makes `k` look up to the new value. -/
theorem getV_mapReplace (m : List (String × Val)) (k : String) (v : Val)
    (h : m.any (fun p => p.1 == k) = true) :
    getV (m.map (fun p => if p.1 == k then (k, v) else p)) k = some v := by
  induction m with
  | nil => simp at h
  | cons p m' ih =>
    obtain ⟨k', v'⟩ := p
    by_cases hk : k' = k
    · subst hk
      rw [List.map_cons, if_pos (show (((k', v').1 == k') = true) by simp)]
      simp [getV]
    · have hbeq : (k' == k) = false := by simpa using hk
      simp only [List.any_cons, hbeq, Bool.false_or] at h
      rw [List.map_cons, if_neg (show ¬(((k', v').1 == k) = true) by simp [hbeq])]
      simp only [getV]
      rw [if_neg hk]
      exact ih h

/-- In-place replacement of key `k` leaves other keys' lookups alone. -/
theorem getV_mapReplace_other (m : List (String × Val)) (k k' : String) (v : Val)
    (hne : k' ≠ k) :
    getV (m.map (fun p => if p.1 == k then (k, v) else p)) k' = getV m k' := by
  induction m with
  | nil => rfl
  | cons p m' ih =>
    obtain ⟨q, u⟩ := p
    by_cases hq : q = k
    · subst hq
      have hqk : q ≠ k' := fun hh => hne hh.symm
      rw [List.map_cons, if_pos (show (((q, u).1 == q) = true) by simp)]
      simp only [getV]
      rw [if_neg hqk, if_neg hqk]
      exact ih
    · have hbeq : (q == k) = false := by simpa using hq
      rw [List.map_cons, if_neg (show ¬(((q, u).1 == k) = true) by simp [hbeq])]
      simp only [getV]
      by_cases hqk : q = k'
      · rw [if_pos hqk, if_pos hqk]
      · rw [if_neg hqk, if_neg hqk]
        exact ih

/-- Python dict assignment: the assigned key looks up to the value. -/
theorem getV_dictInsert_self (m : List (String × Val)) (k : String) (v : Val) :
    getV (dictInsert m k v) k = some v := by
  unfold dictInsert
  by_cases h : m.any (fun p => p.1 == k) = true
  · rw [if_pos h]
    exact getV_mapReplace m k v h
  · rw [if_neg h]
    have hnone : getV m k = none :=
      getV_none_of_any_false m k (by rwa [Bool.not_eq_true] at h)
    rw [getV_append, hnone]
    simp [getV]

/-- Python dict assignment: other keys' lookups are untouched. -/
theorem getV_dictInsert_other (m : List (String × Val)) (k k' : String) (v : Val)
    (hne : k' ≠ k) :
    getV (dictInsert m k v) k' = getV m k' := by
  unfold dictInsert
  by_cases h : m.any (fun p => p.1 == k) = true
  · rw [if_pos h]
    exact getV_mapReplace_other m k k' v hne
  · rw [if_neg h, getV_append]
    have hkv : getV [(k, v)] k' = none := by
      have : k ≠ k' := fun hh => hne hh.symm
      simp [getV, this]
    cases hg : getV m k' <;> simp [hg, hkv]

/-- Names not in the remaining input are untouched by the loop. -/
theorem batchLoop_stable (w : World) (r : ℚ) (ns : List String) (nm : String)
    (hnm : nm ∉ ns) :
    ∀ m tot, getV (batchLoop w r ns m tot).1 nm = getV m nm := by
  induction ns with
  | nil => intro m tot; rfl
  | cons n₀ rest ih =>
    intro m tot
    have hne : nm ≠ n₀ := fun h => hnm (by simp [h])
    have hrest : nm ∉ rest := fun h => hnm (by simp [h])
    simp only [batchLoop]
    rw [ih hrest]
    exact getV_dictInsert_other m n₀ nm _ hne

/-- Every processed name's final map entry is its own item result. -/
theorem batchLoop_lookup (w : World) (r : ℚ) :
    ∀ (ns : List String) (m : List (String × Val)) (tot : Nat) (nm : String),
      nm ∈ ns →
      getV (batchLoop w r ns m tot).1 nm = some (.vdict (batchItem w r nm).1) := by
  intro ns
  induction ns with
  | nil => intro m tot nm h; simp at h
  | cons n₀ rest ih =>
    intro m tot nm hmem
    by_cases hr : nm ∈ rest
    · simp only [batchLoop]
      exact ih _ _ nm hr
    · have hn : nm = n₀ := by
        rcases List.mem_cons.mp hmem with h | h
        · exact h
        · exact absurd h hr
      subst hn
      simp only [batchLoop]
      rw [batchLoop_stable w r rest nm hr]
      exact getV_dictInsert_self m nm _

/-- The loop's trace is the concatenation of the per-occurrence traces,
in input order. -/
theorem batchLoop_calls (w : World) (r : ℚ) :
    ∀ (ns : List String) (m : List (String × Val)) (tot : Nat),
      (batchLoop w r ns m tot).2.2
        = (ns.map (fun nm => (batchItem w r nm).2.2)).flatten := by
  intro ns
  induction ns with
  | nil => intro m tot; rfl
  | cons n₀ rest ih =>
    intro m tot
    simp only [batchLoop, List.map_cons, List.flatten_cons]
    rw [ih]

/-- Key order after a Python dict assignment. -/
theorem mapKeys_dictInsert (m : List (String × Val)) (k : String) (v : Val) :
    mapKeys (dictInsert m k v)
      = if keyMem (mapKeys m) k then mapKeys m else mapKeys m ++ [k] := by
  have hany : ∀ m' : List (String × Val),
      m'.any (fun p => p.1 == k) = keyMem (mapKeys m') k := by
    intro m'
    unfold keyMem mapKeys
    induction m' with
    | nil => rfl
    | cons p rest ih =>
      simp only [List.map_cons, List.any_cons]
      rw [ih]
  have hany := hany m
  unfold dictInsert
  by_cases h : m.any (fun p => p.1 == k) = true
  · rw [if_pos h, if_pos (by rw [← hany]; exact h)]
    unfold mapKeys
    rw [List.map_map]
    apply List.map_congr_left
    intro p _
    by_cases hpk : p.1 = k
    · simp [Function.comp, hpk]
    · simp [Function.comp, hpk]
  · have h' : keyMem (mapKeys m) k = false := by
      rw [hany, Bool.not_eq_true] at h
      exact h
    rw [if_neg h, if_neg (by simp [h'])]
    simp [mapKeys]

/-- The loop's key order is the Python dict key order of the input. -/
theorem batchLoop_keys (w : World) (r : ℚ) :
    ∀ (ns : List String) (m : List (String × Val)) (tot : Nat),
      mapKeys (batchLoop w r ns m tot).1
        = ns.foldl (fun ks nm => if keyMem ks nm then ks else ks ++ [nm]) (mapKeys m) := by
  intro ns
  induction ns with
  | nil => intro m tot; rfl
  | cons n₀ rest ih =>
    intro m tot
    simp only [batchLoop, List.foldl_cons]
    rw [ih, mapKeys_dictInsert]

/-- Every per-item result carries one of the four status tags. -/
theorem batchItem_status (w : World) (r : ℚ) (nm : String) :
    ∃ st, getV (batchItem w r nm).1 "status" = some (.s st)
      ∧ (st = "found" ∨ st = "no_data" ∨ st = "not_resolved" ∨ st = "error") := by
  unfold batchItem
  cases hres : w.simbad nm with
  | error e => exact ⟨"error", by simp [getV], by simp⟩
  | ok o =>
    cases o with
    | none => exact ⟨"not_resolved", by simp [getV], by simp⟩
    | some coord =>
      obtain ⟨ra, dec⟩ := coord
      cases htap : w.tap (batchConeQuery ra dec (r / 60)) with
      | error e => exact ⟨"error", by simp [htap, getV], by simp⟩
      | ok df =>
        cases hdf : df.rows.isEmpty with
        | true => exact ⟨"no_data", by simp [htap, hdf, getV], by simp⟩
        | false => exact ⟨"found", by simp [htap, hdf, getV], by simp⟩

/-- A raised resolver exception becomes that item's error record. -/
theorem batchItem_simbad_error (w : World) (r : ℚ) (nm e : String)
    (h : w.simbad nm = .error e) :
    (batchItem w r nm).1
      = [("status", .s "error"), ("count", .n 0), ("message", .s e)] := by
  unfold batchItem
  rw [h]

/-! ## Claims C6, C7, C8: the batch runner -/

/-- C6 counterexample: for the input `["M87", "M87"]` both occurrences
are processed (two resolver calls, `total_sources_queried = 2`) but the
per-name result map holds a single entry, not one per occurrence. -/
theorem alma_c6_counterexample :
    getV (query_alma_multiple_sources wNotRes ["M87", "M87"] 1).1 "total_sources_queried"
      = some (.n 2)
    ∧ (query_alma_multiple_sources wNotRes ["M87", "M87"] 1).2
      = [Call.simbadQ "M87", Call.simbadQ "M87"]
    ∧ getV (query_alma_multiple_sources wNotRes ["M87", "M87"] 1).1 "results_by_source"
      = some (.vdict [("M87", .vdict [("status", .s "not_resolved"), ("count", .n 0),
          ("message", .s "Could not resolve 'M87' in SIMBAD")])]) := by
  exact ⟨rfl, rfl, rfl⟩

/-- C6 (amended): each occurrence (within the 20-entry limit) is
processed independently in input order with no deduplication — the trace
is the concatenation of the per-occurrence traces and
`total_sources_queried` counts occurrences — but the per-name detail map
is keyed by name: its keys are the distinct names in first-occurrence
order, so a repeated name yields one entry (its own item result), not one
entry per occurrence. -/
theorem alma_c6_batch_occurrences (w : World) (names : List String) (r : ℚ)
    (hs : w.simbadAvailable = true) (hp : w.pyvoAvailable = true) :
    (query_alma_multiple_sources w names r).2
      = ((names.take 20).map (fun nm => (batchItem w r nm).2.2)).flatten
    ∧ getV (query_alma_multiple_sources w names r).1 "total_sources_queried"
      = some (.n (names.take 20).length)
    ∧ getV (query_alma_multiple_sources w names r).1 "results_by_source"
      = some (.vdict (batchLoop w r (names.take 20) [] 0).1)
    ∧ mapKeys (batchLoop w r (names.take 20) [] 0).1 = pyKeys (names.take 20)
    ∧ (∀ nm ∈ names.take 20,
        getV (batchLoop w r (names.take 20) [] 0).1 nm
          = some (.vdict (batchItem w r nm).1)) := by
  unfold query_alma_multiple_sources
  rw [hs, hp]
  refine ⟨?_, rfl, rfl, ?_, ?_⟩
  · exact batchLoop_calls w r (names.take 20) [] 0
  · rw [batchLoop_keys w r (names.take 20) [] 0]
    rfl
  · intro nm hnm
    exact batchLoop_lookup w r (names.take 20) [] 0 nm hnm

/-- C6 witness: the amended statement at a concrete repeated-name batch. -/
theorem alma_c6_witness :
    (query_alma_multiple_sources wNotRes ["A", "A", "B"] 1).2
      = ((["A", "A", "B"].map (fun nm => (batchItem wNotRes 1 nm).2.2)).flatten)
    ∧ mapKeys (batchLoop wNotRes 1 ["A", "A", "B"] [] 0).1 = pyKeys ["A", "A", "B"] := by
  have h := alma_c6_batch_occurrences wNotRes ["A", "A", "B"] 1 rfl rfl
  exact ⟨h.1, h.2.2.2.1⟩

/-- C7: every batch item is processed in isolation — the whole batch
always returns the non-error aggregate shape, every processed name's
entry in the detail map is exactly its own item result, every item
carries one of the four status tags with a message on failure, and a
resolver exception for one name is recorded as that name's error record
while the rest of the batch still completes. -/
theorem alma_c7_batch_isolation (w : World) (names : List String) (r : ℚ)
    (hs : w.simbadAvailable = true) (hp : w.pyvoAvailable = true) :
    getV (query_alma_multiple_sources w names r).1 "error" = none
    ∧ getV (query_alma_multiple_sources w names r).1 "results_by_source"
      = some (.vdict (batchLoop w r (names.take 20) [] 0).1)
    ∧ (∀ nm ∈ names.take 20,
        getV (batchLoop w r (names.take 20) [] 0).1 nm
          = some (.vdict (batchItem w r nm).1))
    ∧ (∀ nm ∈ names.take 20, ∃ st,
        getV (batchItem w r nm).1 "status" = some (.s st)
        ∧ (st = "found" ∨ st = "no_data" ∨ st = "not_resolved" ∨ st = "error"))
    ∧ (∀ nm ∈ names.take 20, ∀ e, w.simbad nm = .error e →
        (batchItem w r nm).1
          = [("status", .s "error"), ("count", .n 0), ("message", .s e)]) := by
  unfold query_alma_multiple_sources
  rw [hs, hp]
  refine ⟨rfl, rfl, ?_, ?_, ?_⟩
  · intro nm hnm
    exact batchLoop_lookup w r (names.take 20) [] 0 nm hnm
  · intro nm _
    exact batchItem_status w r nm
  · intro nm _ e he
    exact batchItem_simbad_error w r nm e he

/-- C7 witness: a batch whose only name's resolution raises still
returns the aggregate shape, with the failure recorded per-item. -/
theorem alma_c7_witness :
    getV (query_alma_multiple_sources wResFail ["X"] 1).1 "error" = none
    ∧ (batchItem wResFail 1 "X").1
      = [("status", .s "error"), ("count", .n 0), ("message", .s "simbad down")] := by
  have h := alma_c7_batch_isolation wResFail ["X"] 1 rfl rfl
  exact ⟨h.1, h.2.2.2.2 "X" (by simp) "simbad down" rfl⟩

/-- C8: exactly the first `min(n, 20)` entries are processed and
reported — `total_sources_queried` equals `min(n, 20)`, the trace covers
precisely the first 20 occurrences, and the overflow is not an error. -/
theorem alma_c8_batch_truncation (w : World) (names : List String) (r : ℚ)
    (hs : w.simbadAvailable = true) (hp : w.pyvoAvailable = true) :
    getV (query_alma_multiple_sources w names r).1 "total_sources_queried"
      = some (.n (min names.length 20))
    ∧ (query_alma_multiple_sources w names r).2
      = ((names.take 20).map (fun nm => (batchItem w r nm).2.2)).flatten
    ∧ getV (query_alma_multiple_sources w names r).1 "error" = none := by
  unfold query_alma_multiple_sources
  rw [hs, hp]
  refine ⟨?_, ?_, rfl⟩
  · have hlen : (names.take 20).length = min names.length 20 := by
      rw [List.length_take]
      exact Nat.min_comm 20 names.length
    rw [← hlen]
    rfl
  · exact batchLoop_calls w r (names.take 20) [] 0

/-- C8 witness: a 25-name batch reports exactly 20 processed. -/
theorem alma_c8_witness :
    getV (query_alma_multiple_sources wOk (List.replicate 25 "src") 1).1 "total_sources_queried"
      = some (.n 20) := by
  have h := alma_c8_batch_truncation wOk (List.replicate 25 "src") 1 rfl rfl
  exact h.1

/-! ## Claim C1: the error contract of the tool facade -/

/-- A response either carries a string-valued `error` field or carries
the given operation-specific success key. -/
def okOr (r : Resp) (k : String) : Prop :=
  (∃ msg, getV r "error" = some (.s msg)) ∨ (getV r k).isSome = true

/-- Every guard/handler response satisfies the error side. -/
theorem okOr_err (msg k : String) : okOr (errResp msg) k := Or.inl ⟨msg, rfl⟩

/-- Contract of the position search. -/
theorem c1aux_position (w : World) (ra dec r : ℚ) (p : Bool) :
    okOr (search_alma_by_position w ra dec r p).1 "count" := by
  unfold search_alma_by_position
  dsimp only
  repeat' split
  all_goals first
    | exact okOr_err _ _
    | exact Or.inr rfl

/-- Contract of the target search. -/
theorem c1aux_target (w : World) (t : String) (r : ℚ) (p : Bool) :
    okOr (search_alma_by_target w t r p).1 "count" := by
  unfold search_alma_by_target
  dsimp only
  repeat' split
  all_goals first
    | exact okOr_err _ _
    | exact Or.inr rfl
    | exact c1aux_position _ _ _ _ _

/-- Contract of the proposal search's TAP portion. -/
theorem c1aux_proposalTap (w : World) (a b : Option String) :
    okOr (proposalTap w a b).1 "count" := by
  unfold proposalTap
  dsimp only
  repeat' split
  all_goals first
    | exact okOr_err _ _
    | exact Or.inr rfl

/-- Contract of the proposal search. -/
theorem c1aux_proposal (w : World) (a b c : Option String) :
    okOr (search_alma_by_proposal w a b c).1 "count" := by
  unfold search_alma_by_proposal
  dsimp only
  repeat' split
  all_goals first
    | exact okOr_err _ _
    | exact Or.inr rfl
    | exact c1aux_proposalTap _ _ _

/-- Contract of the line-coverage check. -/
theorem c1aux_line (w : World) (t : String) (f z : ℚ) :
    okOr (check_alma_line_coverage w t f z).1 "total_observations" := by
  unfold check_alma_line_coverage
  dsimp only
  repeat' split
  all_goals first
    | exact okOr_err _ _
    | exact Or.inr rfl

/-- Contract of the frequency search. -/
theorem c1aux_frequency (w : World) (f1 f2 : ℚ) (tn : Option String) :
    okOr (search_alma_by_frequency w f1 f2 tn).1 "count" := by
  unfold search_alma_by_frequency
  dsimp only
  repeat' split
  all_goals first
    | exact okOr_err _ _
    | exact Or.inr rfl

/-- Contract of the resolution search. -/
theorem c1aux_resolution (w : World) (mx mn : ℚ) (tn : Option String) :
    okOr (search_alma_by_resolution w mx mn tn).1 "count" := by
  unfold search_alma_by_resolution
  dsimp only
  repeat' split
  all_goals first
    | exact okOr_err _ _
    | exact Or.inr rfl

/-- Contract of the raw TAP query. -/
theorem c1aux_tap (w : World) (sql : String) (mr : Int) :
    okOr (run_alma_tap_query w sql mr).1 "count" := by
  unfold run_alma_tap_query
  dsimp only
  repeat' split
  all_goals first
    | exact okOr_err _ _
    | exact Or.inl ⟨_, rfl⟩
    | exact Or.inr rfl

/-- Hint contract of the raw TAP query with pyvo present: any failure
then carries the usage hint. -/
theorem c1aux_tap_hint (w : World) (sql : String) (mr : Int)
    (hp : w.pyvoAvailable = true) :
    getV (run_alma_tap_query w sql mr).1 "error" = none
    ∨ (getV (run_alma_tap_query w sql mr).1 "hint").isSome = true := by
  unfold run_alma_tap_query
  rw [hp]
  dsimp only
  cases htap : w.tap (injectTop sql (min mr 1000)) with
  | error e => exact Or.inr rfl
  | ok df =>
    cases hdf : df.rows.isEmpty with
    | true =>
      refine Or.inl ?_
      simp [getV, hdf]
    | false =>
      refine Or.inl ?_
      simp [getV, hdf]

/-- Contract of the source-name search. -/
theorem c1aux_sourceName (w : World) (sn : String) (em : Bool) :
    okOr (search_alma_by_source_name w sn em).1 "count" := by
  unfold search_alma_by_source_name
  dsimp only
  repeat' split
  all_goals first
    | exact okOr_err _ _
    | exact Or.inr rfl

/-- Contract of the bibliography search. -/
theorem c1aux_bibliography (w : World) (b j a : Option String) (y : Option Int) :
    okOr (search_alma_by_bibliography w b j a y).1 "count" := by
  unfold search_alma_by_bibliography
  dsimp only
  repeat' split
  all_goals first
    | exact okOr_err _ _
    | exact Or.inr rfl

/-- Contract of the dataset-id search. -/
theorem c1aux_memberOus (w : World) (mid : String) :
    okOr (search_alma_by_member_ous w mid).1 "count" := by
  unfold search_alma_by_member_ous
  dsimp only
  repeat' split
  all_goals first
    | exact okOr_err _ _
    | exact Or.inr rfl

/-- Contract of the data-type search. -/
theorem c1aux_dataType (w : World) (dt : String) (tn sk : Option String) (b : Option Int) :
    okOr (search_alma_by_data_type w dt tn sk b).1 "count" := by
  unfold search_alma_by_data_type
  dsimp only
  repeat' split
  all_goals first
    | exact okOr_err _ _
    | exact Or.inr rfl

/-- Contract of the science-keyword search. -/
theorem c1aux_scienceKeyword (w : World) (k : String) (dt : Option String)
    (b : Option Int) (so : Bool) :
    okOr (search_alma_by_science_keyword w k dt b so).1 "count" := by
  unfold search_alma_by_science_keyword
  dsimp only
  repeat' split
  all_goals first
    | exact okOr_err _ _
    | exact Or.inr rfl

/-- Contract of the abstract search. -/
theorem c1aux_abstract (w : World) (st : String) (sp : Bool) :
    okOr (search_alma_by_abstract w st sp).1 "count" := by
  unfold search_alma_by_abstract
  dsimp only
  repeat' split
  all_goals first
    | exact okOr_err _ _
    | exact Or.inr rfl

/-- Contract of the sensitivity search. -/
theorem c1aux_sensitivity (w : World) (ms : ℚ) (t : String) (tn : Option String)
    (b : Option Int) :
    okOr (search_alma_by_sensitivity w ms t tn b).1 "count" := by
  unfold search_alma_by_sensitivity
  dsimp only
  repeat' split
  all_goals first
    | exact okOr_err _ _
    | exact Or.inr rfl

/-- Contract of the batch runner. -/
theorem c1aux_batch (w : World) (ns : List String) (r : ℚ) :
    okOr (query_alma_multiple_sources w ns r).1 "total_sources_queried" := by
  unfold query_alma_multiple_sources
  dsimp only
  repeat' split
  all_goals first
    | exact okOr_err _ _
    | exact Or.inr rfl

/-- C1 counterexample: the raw-query operation's capability-missing
failure carries an `error` field but no usage `hint` field. -/
theorem alma_c1_counterexample :
    run_alma_tap_query wNoPyvo "SELECT 1" 100
      = ([("error", .s "pyvo library not installed")], [])
    ∧ getV (run_alma_tap_query wNoPyvo "SELECT 1" 100).1 "hint" = none := by
  exact ⟨rfl, rfl⟩

/-- C1 (amended): every tool-facade operation, under every collaborator
behavior, returns a mapping that carries either a string-valued `error`
cause or the operation's success shape (the operations are total
functions of the collaborator outcomes, so no exception crosses the
boundary); the raw-query operation's failure mapping additionally
carries the usage `hint` whenever pyvo is available — that is, for all
query-execution failures — while its capability-missing failure carries
only `error`. -/
theorem alma_c1_error_contract :
    (∀ w t r p, okOr (search_alma_by_target w t r p).1 "count")
    ∧ (∀ w ra dec r p, okOr (search_alma_by_position w ra dec r p).1 "count")
    ∧ (∀ w a b c, okOr (search_alma_by_proposal w a b c).1 "count")
    ∧ (∀ w t f z, okOr (check_alma_line_coverage w t f z).1 "total_observations")
    ∧ okOr get_alma_info.1 "telescope"
    ∧ (∀ w f1 f2 tn, okOr (search_alma_by_frequency w f1 f2 tn).1 "count")
    ∧ (∀ w mx mn tn, okOr (search_alma_by_resolution w mx mn tn).1 "count")
    ∧ (∀ w sql mr, okOr (run_alma_tap_query w sql mr).1 "count")
    ∧ (∀ w sql mr, w.pyvoAvailable = true →
        getV (run_alma_tap_query w sql mr).1 "error" = none
        ∨ (getV (run_alma_tap_query w sql mr).1 "hint").isSome = true)
    ∧ (∀ w sn em, okOr (search_alma_by_source_name w sn em).1 "count")
    ∧ (∀ w b j a y, okOr (search_alma_by_bibliography w b j a y).1 "count")
    ∧ (∀ w mid, okOr (search_alma_by_member_ous w mid).1 "count")
    ∧ (∀ w dt tn sk b, okOr (search_alma_by_data_type w dt tn sk b).1 "count")
    ∧ (∀ w k dt b so, okOr (search_alma_by_science_keyword w k dt b so).1 "count")
    ∧ (∀ w st sp, okOr (search_alma_by_abstract w st sp).1 "count")
    ∧ (∀ w ms t tn b, okOr (search_alma_by_sensitivity w ms t tn b).1 "count")
    ∧ (∀ w ns r, okOr (query_alma_multiple_sources w ns r).1 "total_sources_queried") := by
  refine ⟨c1aux_target, c1aux_position, c1aux_proposal, c1aux_line, Or.inr rfl,
    c1aux_frequency, c1aux_resolution, c1aux_tap, c1aux_tap_hint, c1aux_sourceName,
    c1aux_bibliography, c1aux_memberOus, c1aux_dataType, c1aux_scienceKeyword,
    c1aux_abstract, c1aux_sensitivity, c1aux_batch⟩

/-- C1 witness: a query-execution failure of the raw-query operation
(pyvo present, TAP raising) satisfies the failure-hint disjunction. -/
theorem alma_c1_witness :
    getV (run_alma_tap_query wTapFail "SELECT x FROM t" 100).1 "error" = none
    ∨ (getV (run_alma_tap_query wTapFail "SELECT x FROM t" 100).1 "hint").isSome = true := by
  have h := alma_c1_error_contract
  exact h.2.2.2.2.2.2.2.2.1 wTapFail "SELECT x FROM t" 100 rfl

end AlmaServer
